import Mathlib

/-!
MiniPTM kernel module: register bridge, open-drain line driver, device matcher,
device lifecycle.

Shallow embedding of `Driver/miniptm_module.c`.

* Machine integers are natural numbers; a `u32` is kept below `2 ^ 32` by an
  explicit `% 2 ^ 32` at every register read and write.
* The memory-mapped register window of one device is a function from byte
  offset to register content; `ioread32` / `iowrite32` read and update it.
* C `int` arguments and results (`value`, `state`, return codes) are `Int`.
* `pr_info` output is kept as a list of log records, oldest first.
* The kernel services the lifecycle code calls (`kzalloc`, `ioremap`,
  `gpiochip_add_data`, `i2c_bit_add_numbered_bus`, ...) are answered by the
  candidate record; the calls made are kept as a trace, oldest first. A NULL
  pointer dereference sets a fault flag and ends the module's code.
-/

namespace MiniPTM

/-! ## Constants (lines 12-43) -/

/-- Line 33: `#define CTRL_EXT 0x18`. -/
def CTRL_EXT : Nat := 0x18

/-- Line 35: `#define SDP2_IODIR (1<<10)`. -/
def SDP2_IODIR : Nat := 1 <<< 10

/-- Line 36: `#define SDP3_IODIR (1<<11)`. -/
def SDP3_IODIR : Nat := 1 <<< 11

/-- Line 37: `#define SDP2_DATA (1<<6)`. -/
def SDP2_DATA : Nat := 1 <<< 6

/-- Line 38: `#define SDP3_DATA (1<<7)`. -/
def SDP3_DATA : Nat := 1 <<< 7

/-- Kernel constant `ETH_ALEN` (octets in one Ethernet address). -/
def ETH_ALEN : Nat := 6

/-! ## Machine model -/

/-- The value of C `~x` once converted to `u32`, as in `data &= ~x`:
every one of the 32 bits of `x` flipped. -/
def not32 (x : Nat) : Nat := (2 ^ 32 - 1) ^^^ (x % 2 ^ 32)

/-- Contents of a mapped register window (`void __iomem *`): byte offset to
register content. -/
abbrev iomem : Type := Nat → Nat

/-- Kernel `ioread32(addr + off)`: the 32-bit content at offset `off`. -/
def ioread32 (m : iomem) (off : Nat) : Nat := m off % 2 ^ 32

/-- Kernel `iowrite32(data, addr + off)`: store the low 32 bits of `data` at
offset `off`; every other offset keeps its content. -/
def iowrite32 (data : Nat) (m : iomem) (off : Nat) : iomem :=
  fun o => if o = off then data % 2 ^ 32 else m o

/-- Kernel `struct net_device`, reduced to the field the module reads:
`dev_addr`, the interface's hardware address as a sequence of octets (the
first `ETH_ALEN` of them are the Ethernet address). -/
structure net_device where
  dev_addr : List Nat

/-- Kernel `struct pci_dev`, reduced to what `pci_get_drvdata` returns for it:
the network interface bound to the device, `none` for a NULL pointer. -/
structure pci_dev where
  drvdata : Option net_device

/-- Lines 66-74, `struct device_list`: the PCI device and the mapped register
window. The GPIO chip and I2C descriptors hold no state that the pin
operations read, so they carry no field here. -/
structure device_list where
  pdev : pci_dev
  mapped_address : iomem

/-- Lines 79-83. -/
def known_mac_addresses : List (List Nat) :=
  [[0x00, 0x00, 0x00, 0x00, 0x00, 0x01],
   [0x00, 0xa0, 0xc9, 0x00, 0x00, 0x00]]

/-! ## Register bridge (lines 89-214) -/

/-- Lines 89-115. Returns the C return value and the device after the write. -/
def my_gpio_direction_input (dev_list : device_list) (offset : Nat) : Int × device_list :=
  let mapped_address := dev_list.mapped_address
  let data := ioread32 mapped_address CTRL_EXT
  let data :=
    if offset = 0 then data &&& not32 SDP2_IODIR
    else if offset = 1 then data &&& not32 SDP3_IODIR
    else data
  (0, { dev_list with mapped_address := iowrite32 data mapped_address CTRL_EXT })

/-- Lines 118-155. Returns the C return value and the device after the write. -/
def my_gpio_direction_output (dev_list : device_list) (offset : Nat) (value : Int) :
    Int × device_list :=
  let mapped_address := dev_list.mapped_address
  let data := ioread32 mapped_address CTRL_EXT
  let data :=
    if offset = 0 then data ||| SDP2_IODIR
    else if offset = 1 then data ||| SDP3_IODIR
    else data
  let data :=
    if value ≠ 0 then
      if offset = 0 then data ||| SDP2_DATA
      else if offset = 1 then data ||| SDP3_DATA
      else data
    else
      if offset = 0 then data &&& not32 SDP2_DATA
      else if offset = 1 then data &&& not32 SDP3_DATA
      else data
  (0, { dev_list with mapped_address := iowrite32 data mapped_address CTRL_EXT })

/-- Lines 159-183. Returns the C return value and the (untouched) device. -/
def my_gpio_get_value (dev_list : device_list) (offset : Nat) : Int × device_list :=
  let mapped_address := dev_list.mapped_address
  let data := ioread32 mapped_address CTRL_EXT
  let data :=
    if offset = 0 then data &&& SDP2_DATA
    else if offset = 1 then data &&& SDP3_DATA
    else data
  if data ≠ 0 then (1, dev_list) else (0, dev_list)

/-- Lines 186-214 (a `void` function): the device after the write. -/
def my_gpio_set_value (dev_list : device_list) (offset : Nat) (value : Int) : device_list :=
  let mapped_address := dev_list.mapped_address
  let data := ioread32 mapped_address CTRL_EXT
  let data :=
    if value ≠ 0 then
      if offset = 0 then data ||| SDP2_DATA
      else if offset = 1 then data ||| SDP3_DATA
      else data
    else
      if offset = 0 then data &&& not32 SDP2_DATA
      else if offset = 1 then data &&& not32 SDP3_DATA
      else data
  { dev_list with mapped_address := iowrite32 data mapped_address CTRL_EXT }

/-! ## Open-drain line driver (lines 229-272) -/

/-- Lines 229-236. -/
def MiniPTM_Read_SCL (dev_list : device_list) : Int × device_list :=
  let dev_list := (my_gpio_direction_input dev_list 1).2
  my_gpio_get_value dev_list 1

/-- Lines 240-246. -/
def MiniPTM_Read_SDA (dev_list : device_list) : Int × device_list :=
  let dev_list := (my_gpio_direction_input dev_list 0).2
  my_gpio_get_value dev_list 0

/-- Lines 250-259. -/
def MiniPTM_Set_SCL (dev_list : device_list) (state : Int) : device_list :=
  if state ≠ 0 then (my_gpio_direction_input dev_list 1).2
  else (my_gpio_direction_output dev_list 1 0).2

/-- Lines 263-272. -/
def MiniPTM_Set_SDA (dev_list : device_list) (state : Int) : device_list :=
  if state ≠ 0 then (my_gpio_direction_input dev_list 0).2
  else (my_gpio_direction_output dev_list 0 0).2

/-- The control-extension register of a device, as the hardware holds it. -/
def ctrl_ext (dev_list : device_list) : Nat := dev_list.mapped_address CTRL_EXT

/-! ## Device matcher (lines 276-355) -/

/-- One `pr_info` / `pr_err` record of the module, by the line that prints it. -/
inductive log_msg where
  /-- Line 292, with the two addresses that `%pM` prints. -/
  | comparing (device_mac known_mac : List Nat)
  /-- Line 296: "MAC address match found". -/
  | match_found
  /-- Line 300: "No MAC address match found". -/
  | no_match_found
  /-- Line 321: module start banner. -/
  | module_start
  /-- Line 340: "Device not ethernet!". -/
  | not_ethernet
  /-- Line 353: "MAC doesn't match!". -/
  | mac_mismatch
  /-- Line 369: BAR 0 start address and length. -/
  | bar0 (start len : Nat)
  /-- Line 393: "Failed to register GPIO chip". -/
  | gpio_failed (ret : Int)
  /-- Line 424: "Failed to add numbered i2c bus". -/
  | i2c_failed (ret : Int)
  /-- Line 449: "Done Insert 1 MiniPTM Basic module". -/
  | done_insert
  /-- Line 479: "MiniPTM Module: Removed". -/
  | removed
  deriving DecidableEq

/-- Kernel `memcmp(s1, s2, n)`: 0 when the first `n` octets agree, otherwise
the difference of the first pair that differs. A buffer that ends before `n`
octets compares as shorter. -/
def memcmp : List Nat → List Nat → Nat → Int
  | _, _, 0 => 0
  | [], [], _ + 1 => 0
  | [], _ :: _, _ + 1 => -1
  | _ :: _, [], _ + 1 => 1
  | a :: s1, b :: s2, n + 1 => if a = b then memcmp s1 s2 n else (a : Int) - (b : Int)

/-- Kernel helper `is_multicast_ether_addr` (linux/etherdevice.h): the
group bit, bit 0 of the first octet, is set. -/
def is_multicast_ether_addr (addr : List Nat) : Bool :=
  decide (addr.getD 0 0 &&& 1 ≠ 0)

/-- Kernel helper `is_zero_ether_addr` (linux/etherdevice.h): all six octets
are zero. -/
def is_zero_ether_addr (addr : List Nat) : Bool :=
  (List.range ETH_ALEN).all fun i => decide (addr.getD i 0 = 0)

/-- Kernel helper `is_valid_ether_addr` (linux/etherdevice.h): neither a
multicast address nor the all-zero address. -/
def is_valid_ether_addr (addr : List Nat) : Bool :=
  !is_multicast_ether_addr addr && !is_zero_ether_addr addr

/-- Lines 290-299, the `for` loop of `is_mac_address_known` over the entries
still to compare: the result and the records logged. -/
def is_mac_address_known_loop (mac_addr : List Nat) : List (List Nat) → Bool × List log_msg
  | [] => (false, [.no_match_found])
  | known :: rest =>
    if memcmp mac_addr known ETH_ALEN = 0 then
      (true, [.comparing (mac_addr.take ETH_ALEN) known, .match_found])
    else
      let r := is_mac_address_known_loop mac_addr rest
      (r.1, .comparing (mac_addr.take ETH_ALEN) known :: r.2)

/-- Lines 276-302. -/
def is_mac_address_known (mac_addr : List Nat) : Bool × List log_msg :=
  is_mac_address_known_loop mac_addr known_mac_addresses

/-- Lines 336-355 of `miniptm_module_init`: the two `continue` guards one
candidate passes before anything is allocated for it. `true` when control
reaches `kzalloc` (the candidate is accepted), with the records logged. -/
def miniptm_module_init_accept (pdev : pci_dev) : Bool × List log_msg :=
  match pdev.drvdata with
  | none => (false, [.not_ethernet])
  | some netdev =>
    if !is_valid_ether_addr netdev.dev_addr then (false, [.not_ethernet])
    else
      let known :=
        if is_valid_ether_addr netdev.dev_addr then is_mac_address_known netdev.dev_addr
        else (false, [])
      let mac_match := known.1
      if !mac_match then (false, known.2 ++ [.mac_mismatch])
      else (true, known.2)

/-- A candidate bound to a network interface with the given hardware address. -/
def candidate_with_mac (mac : List Nat) : pci_dev := ⟨some ⟨mac⟩⟩

/-- A candidate with no network interface (`pci_get_drvdata` returns NULL). -/
def candidate_without_netdev : pci_dev := ⟨none⟩

/-! ## Harness for sequences of line operations -/

/-- One call of the I2C bit-bang operation table (lines 401-404). -/
inductive LineOp where
  | read_scl
  | read_sda
  | set_scl (state : Int)
  | set_sda (state : Int)

/-- The device after one line operation (a read's return value is dropped). -/
def LineOp.apply (dev_list : device_list) : LineOp → device_list
  | .read_scl => (MiniPTM_Read_SCL dev_list).2
  | .read_sda => (MiniPTM_Read_SDA dev_list).2
  | .set_scl state => MiniPTM_Set_SCL dev_list state
  | .set_sda state => MiniPTM_Set_SDA dev_list state

/-- The device after a finite sequence of line operations, first one first. -/
def run_line_ops (dev_list : device_list) : List LineOp → device_list
  | [] => dev_list
  | op :: ops => run_line_ops (op.apply dev_list) ops

/-- Some pin is an output with its data bit set (bits 10 and 6 for SDA, bits
11 and 7 for SCL): the register content actively drives that line high. -/
def drives_high (r : Nat) : Bool :=
  (r.testBit 10 && r.testBit 6) || (r.testBit 11 && r.testBit 7)

/-- Bit `i` of the control-extension register is the same in both devices. -/
def same_bit (i : Nat) (before after : device_list) : Prop :=
  (ctrl_ext after).testBit i = (ctrl_ext before).testBit i

/-- A device whose whole register window reads `0xFFFFFFFF`. -/
def dev_all_ones : device_list := ⟨⟨none⟩, fun _ => 0xFFFFFFFF⟩

/-- A device whose whole register window reads `0`. -/
def dev_zero : device_list := ⟨⟨none⟩, fun _ => 0⟩

/-- A device whose control-extension register reads `0xC0`: both pins are
inputs and both data bits are set (both lines pulled up, nothing driven). -/
def dev_released : device_list := ⟨⟨none⟩, fun _ => 0xC0⟩

/-! ## Device lifecycle (lines 306-481) -/

/-- Line 41: `#define LED_CONFIG 0xe00`. -/
def LED_CONFIG : Nat := 0xe00

/-- Line 42: `#define LED_ALWAYS_ON (0x0)`. -/
def LED_ALWAYS_ON : Nat := 0x0

/-- Line 43: `#define LED_ALWAYS_OFF (0x1)`. -/
def LED_ALWAYS_OFF : Nat := 0x1

/-- Lines 443-446: the LED errata write, one `iowrite32` of a constant to
`mapped_address + LED_CONFIG`. -/
def miniptm_led_errata_write (mapped_address : iomem) : iomem :=
  iowrite32 ((LED_ALWAYS_OFF <<< 0) + (LED_ALWAYS_OFF <<< 8) + (LED_ALWAYS_OFF <<< 16))
    mapped_address LED_CONFIG

/-- One `struct device_list` object as the lifecycle code holds it: the
address `kzalloc` returned for it, its `pdev`, and its `mapped_address`,
`none` for a NULL mapping. -/
structure device_list_entry where
  addr : Nat
  pdev : pci_dev
  mapped_address : Option iomem

/-- A call the lifecycle code makes into the kernel, tagged with the
`struct device_list` object (by address) it is made for. -/
inductive kernel_call where
  /-- Line 358, with the pointer returned (`none` for NULL). -/
  | kzalloc (ret : Option Nat)
  /-- Line 373: `ioremap` of BAR 0 for this object. -/
  | ioremap (dev_list : Nat)
  /-- Line 391. -/
  | gpiochip_add_data (dev_list : Nat)
  /-- Line 422. -/
  | i2c_bit_add_numbered_bus (dev_list : Nat)
  /-- Line 434: `list_add(&dev_list->list, &device_list_head)`. -/
  | list_add (dev_list : Nat)
  /-- Line 443: the LED errata `iowrite32`. -/
  | led_write (dev_list : Nat)
  /-- Line 468, with what the bus unregistration reports. -/
  | i2c_del_adapter (dev_list : Nat) (report : Int)
  /-- Lines 426 and 470. -/
  | gpiochip_remove (dev_list : Nat)
  /-- Lines 394, 427 and 472: `iounmap(dev_list->mapped_address)`. -/
  | iounmap (dev_list : Nat)
  /-- Line 474. -/
  | list_del (dev_list : Nat)
  /-- Lines 395, 428 and 475. -/
  | kfree (dev_list : Nat)
  deriving DecidableEq

/-- One device that `pci_get_device(VENDOR_ID, DEVICE_ID, ...)` hands to the
setup loop, together with what the kernel answers to the calls made for it:
the BAR 0 start and length, the pointer `kzalloc` returns (`none` for NULL),
the window `ioremap` maps (`none` for NULL), and the return codes of
`gpiochip_add_data` and `i2c_bit_add_numbered_bus`. -/
structure candidate where
  pdev : pci_dev
  bar0_start : Nat
  bar0_len : Nat
  kzalloc : Option Nat
  ioremap : Option iomem
  gpiochip_add_data : Int
  i2c_bit_add_numbered_bus : Int

/-- What the module's code has done so far: the registry `device_list_head`
in list order (first entry first), the records logged, the kernel calls made,
and whether a NULL pointer was dereferenced (the kernel stops the module's
code at that point; nothing after it runs). -/
structure module_state where
  device_list_head : List device_list_entry
  log : List log_msg
  calls : List kernel_call
  fault : Bool

/-- Line 75, `LIST_HEAD(device_list_head)`: the state at module load. -/
def module_state.initial : module_state := ⟨[], [], [], false⟩

/-- Lines 330-449: one iteration of the `while` loop of `miniptm_module_init`,
for one candidate. -/
def miniptm_module_init_body (s : module_state) (c : candidate) : module_state :=
  let accepted := miniptm_module_init_accept c.pdev
  let s := { s with log := s.log ++ accepted.2 }
  if !accepted.1 then s
  else
    let s := { s with calls := s.calls ++ [kernel_call.kzalloc c.kzalloc] }
    match c.kzalloc with
    | none => { s with fault := true }
    | some dev_list =>
      let s := { s with
        log := s.log ++ [log_msg.bar0 c.bar0_start c.bar0_len]
        calls := s.calls ++
          [kernel_call.ioremap dev_list, kernel_call.gpiochip_add_data dev_list] }
      if c.gpiochip_add_data ≠ 0 then
        { s with
          log := s.log ++ [log_msg.gpio_failed c.gpiochip_add_data]
          calls := s.calls ++ [kernel_call.iounmap dev_list, kernel_call.kfree dev_list] }
      else
        let s := { s with calls := s.calls ++ [kernel_call.i2c_bit_add_numbered_bus dev_list] }
        if c.i2c_bit_add_numbered_bus < 0 then
          { s with
            log := s.log ++ [log_msg.i2c_failed c.i2c_bit_add_numbered_bus]
            calls := s.calls ++
              [kernel_call.gpiochip_remove dev_list, kernel_call.iounmap dev_list,
               kernel_call.kfree dev_list] }
        else
          let s := { s with
            calls := s.calls ++ [kernel_call.list_add dev_list, kernel_call.led_write dev_list] }
          match c.ioremap with
          | none =>
            { s with
              device_list_head := ⟨dev_list, c.pdev, none⟩ :: s.device_list_head
              fault := true }
          | some mapped_address =>
            { s with
              device_list_head :=
                ⟨dev_list, c.pdev, some (miniptm_led_errata_write mapped_address)⟩
                  :: s.device_list_head
              log := s.log ++ [log_msg.done_insert] }

/-- Lines 329-450: the `while` loop over the candidates `pci_get_device`
enumerates. After a fault no further candidate is processed. -/
def miniptm_module_init_loop (s : module_state) : List candidate → module_state
  | [] => s
  | c :: rest =>
    let s := miniptm_module_init_body s c
    if s.fault then s else miniptm_module_init_loop s rest

/-- Lines 306-452: the return value (`none` when a fault kept the function
from returning) and the state reached, from the state at module load. -/
def miniptm_module_init (candidates : List candidate) : Option Int × module_state :=
  let s := { module_state.initial with log := [log_msg.module_start] }
  let s := miniptm_module_init_loop s candidates
  (if s.fault then none else some 0, s)

/-- Lines 463-476: the `list_for_each_entry_safe` sweep over the entries still
on the registry. `i2c_del_adapter` gives what the bus unregistration reports
for an object. -/
def miniptm_module_exit_loop (i2c_del_adapter : Nat → Int) (s : module_state) :
    List device_list_entry → module_state
  | [] => s
  | dev_list :: rest =>
    miniptm_module_exit_loop i2c_del_adapter
      { s with
        device_list_head := rest
        calls := s.calls ++
          [kernel_call.i2c_del_adapter dev_list.addr (i2c_del_adapter dev_list.addr),
           kernel_call.gpiochip_remove dev_list.addr,
           kernel_call.iounmap dev_list.addr,
           kernel_call.list_del dev_list.addr,
           kernel_call.kfree dev_list.addr] }
      rest

/-- Lines 454-481. -/
def miniptm_module_exit (i2c_del_adapter : Nat → Int) (s : module_state) : module_state :=
  let s := miniptm_module_exit_loop i2c_del_adapter s s.device_list_head
  { s with log := s.log ++ [log_msg.removed] }

/-! ## Vocabulary for the lifecycle properties -/

/-- The candidate is accepted and both registrations succeed for a non-NULL
object: control reaches `list_add` (line 434). The result of `ioremap` plays
no part, the code never tests it. -/
def candidate.commits (c : candidate) : Bool :=
  (miniptm_module_init_accept c.pdev).1 && c.kzalloc.isSome &&
    decide (c.gpiochip_add_data = 0) && !decide (c.i2c_bit_add_numbered_bus < 0)

/-- Processing the candidate dereferences a NULL pointer: the object itself
(line 363) or, once registered, its mapping (line 443). -/
def candidate.faults (c : candidate) : Bool :=
  (miniptm_module_init_accept c.pdev).1 &&
    (c.kzalloc.isNone ||
      (decide (c.gpiochip_add_data = 0) && !decide (c.i2c_bit_add_numbered_bus < 0) &&
        c.ioremap.isNone))

/-- The registry entry the setup loop makes for a candidate that commits. -/
def candidate.entry (c : candidate) : Option device_list_entry :=
  if c.commits then
    c.kzalloc.map fun dev_list =>
      ⟨dev_list, c.pdev, c.ioremap.map miniptm_led_errata_write⟩
  else none

/-- Lines 468-475: the five calls that tear one instance down, in order. -/
def teardown_calls (i2c_del_adapter : Nat → Int) (d : device_list_entry) : List kernel_call :=
  [kernel_call.i2c_del_adapter d.addr (i2c_del_adapter d.addr),
   kernel_call.gpiochip_remove d.addr,
   kernel_call.iounmap d.addr,
   kernel_call.list_del d.addr,
   kernel_call.kfree d.addr]

/-- The `struct device_list` object a call is made for. -/
def kernel_call.dev_list : kernel_call → Option Nat
  | .kzalloc ret => ret
  | .ioremap d => some d
  | .gpiochip_add_data d => some d
  | .i2c_bit_add_numbered_bus d => some d
  | .list_add d => some d
  | .led_write d => some d
  | .i2c_del_adapter d _ => some d
  | .gpiochip_remove d => some d
  | .iounmap d => some d
  | .list_del d => some d
  | .kfree d => some d

/-- The calls of a trace made for the object at address `a`, in order. -/
def calls_for (a : Nat) (calls : List kernel_call) : List kernel_call :=
  calls.filter fun k => decide (k.dev_list = some a)

/-- An accepted candidate (`00:00:00:00:00:01`) for which every kernel call
succeeds; its object is at address 1. -/
def cand_ok_1 : candidate :=
  ⟨candidate_with_mac [0x00, 0x00, 0x00, 0x00, 0x00, 0x01], 0xfe000000, 0x100000,
    some 1, some (fun _ => 0xFFFFFFFF), 0, 0⟩

/-- An accepted candidate (`00:a0:c9:00:00:00`) for which every kernel call
succeeds; its object is at address 2. -/
def cand_ok_2 : candidate :=
  ⟨candidate_with_mac [0x00, 0xa0, 0xc9, 0x00, 0x00, 0x00], 0xfe100000, 0x100000,
    some 2, some (fun _ => 0), 0, 0⟩

/-- A candidate whose address (`00:00:00:00:00:02`) is not on the allow-list. -/
def cand_unknown_mac : candidate :=
  ⟨candidate_with_mac [0x00, 0x00, 0x00, 0x00, 0x00, 0x02], 0xfe200000, 0x100000,
    some 3, some (fun _ => 0), 0, 0⟩

/-- An accepted candidate for which `ioremap` returns NULL while both
registrations succeed. -/
def cand_null_mapping : candidate :=
  ⟨candidate_with_mac [0x00, 0x00, 0x00, 0x00, 0x00, 0x01], 0xfe000000, 0x100000,
    some 1, none, 0, 0⟩

/-- An accepted candidate for which `gpiochip_add_data` fails with `-EINVAL`. -/
def cand_gpio_fails : candidate :=
  ⟨candidate_with_mac [0x00, 0x00, 0x00, 0x00, 0x00, 0x01], 0xfe000000, 0x100000,
    some 4, some (fun _ => 0), -22, 0⟩

/-- An accepted candidate for which `i2c_bit_add_numbered_bus` fails with
`-EBUSY`. -/
def cand_i2c_fails : candidate :=
  ⟨candidate_with_mac [0x00, 0x00, 0x00, 0x00, 0x00, 0x01], 0xfe000000, 0x100000,
    some 5, some (fun _ => 0), 0, -16⟩

/-- The objects registered by a trace, in the order of their `list_add`. -/
def registration_order (calls : List kernel_call) : List Nat :=
  calls.filterMap fun k =>
    match k with
    | .list_add d => some d
    | _ => none

/-- The objects torn down by a trace, in the order in which their teardown
starts (`i2c_del_adapter`, line 468). -/
def teardown_order (calls : List kernel_call) : List Nat :=
  calls.filterMap fun k =>
    match k with
    | .i2c_del_adapter d _ => some d
    | _ => none

/-- A registry of three active instances, at addresses 3, 2 and 1. -/
def three_active : module_state :=
  ⟨[⟨3, candidate_without_netdev, some (fun _ => 0)⟩,
    ⟨2, candidate_without_netdev, some (fun _ => 0)⟩,
    ⟨1, candidate_without_netdev, some (fun _ => 0)⟩], [], [], false⟩

/-- A bus unregistration that reports `-EBUSY` for the object at address 2
and success for every other. -/
def second_unregistration_fails (dev_list : Nat) : Int :=
  if dev_list = 2 then -16 else 0

/-- The device after one `iowrite32` of `data` to its control-extension
register. -/
def with_ctrl_ext (dev_list : device_list) (data : Nat) : device_list :=
  { dev_list with mapped_address := iowrite32 data dev_list.mapped_address CTRL_EXT }

/-- A device whose control-extension register reads `1`: the only bit set
belongs to neither pin. -/
def dev_bit_0 : device_list := ⟨⟨none⟩, fun _ => 1⟩

/-- A mutating operation on one pin: the three register-bridge calls that
write, and the line driver's set and read for the pin's line. -/
inductive pin_op where
  | direction_input
  | direction_output (value : Int)
  | set_value (value : Int)
  | set_line (state : Int)
  | read_line

/-- The operation addressed to pin 0 (SDA): the value it returns, `none` for a
`void` function, and the device after it. -/
def pin_op.run_pin0 (dev_list : device_list) : pin_op → Option Int × device_list
  | .direction_input =>
    (some (my_gpio_direction_input dev_list 0).1, (my_gpio_direction_input dev_list 0).2)
  | .direction_output value =>
    (some (my_gpio_direction_output dev_list 0 value).1,
      (my_gpio_direction_output dev_list 0 value).2)
  | .set_value value => (none, my_gpio_set_value dev_list 0 value)
  | .set_line state => (none, MiniPTM_Set_SDA dev_list state)
  | .read_line => (some (MiniPTM_Read_SDA dev_list).1, (MiniPTM_Read_SDA dev_list).2)

/-- The operation addressed to pin 1 (SCL): the value it returns, `none` for a
`void` function, and the device after it. -/
def pin_op.run_pin1 (dev_list : device_list) : pin_op → Option Int × device_list
  | .direction_input =>
    (some (my_gpio_direction_input dev_list 1).1, (my_gpio_direction_input dev_list 1).2)
  | .direction_output value =>
    (some (my_gpio_direction_output dev_list 1 value).1,
      (my_gpio_direction_output dev_list 1 value).2)
  | .set_value value => (none, my_gpio_set_value dev_list 1 value)
  | .set_line state => (none, MiniPTM_Set_SCL dev_list state)
  | .read_line => (some (MiniPTM_Read_SCL dev_list).1, (MiniPTM_Read_SCL dev_list).2)

/-- The function `f` on devices is a write confined to bits `a` and `b` of the
control-extension register: the new bit `a` depends only on the old bit `a`,
the new bit `b` only on the old bit `b`, every other bit is the one read, and
nothing but that register changes. -/
def pin_update (a b : Nat) (f : device_list → device_list) : Prop :=
  (∃ ga gb : Bool → Bool, ∀ dev i,
    (ctrl_ext (f dev)).testBit i =
      if i = a then ga ((ctrl_ext dev).testBit a)
      else if i = b then gb ((ctrl_ext dev).testBit b)
      else (ctrl_ext dev % 2 ^ 32).testBit i) ∧
  (∀ dev, (f dev).pdev = dev.pdev) ∧
  (∀ dev o, o ≠ CTRL_EXT → (f dev).mapped_address o = dev.mapped_address o)

/-! ## Register accesses of `my_gpio_direction_output` -/

/-- One access to the mapped register window: an `ioread32` of the register
at a byte offset, or an `iowrite32` of 32 bits of data to it. -/
inductive bus_access where
  | read (off : Nat)
  | write (off : Nat) (data : Nat)
  deriving DecidableEq

/-- A register window together with the accesses made to it, oldest first. -/
structure traced_iomem where
  window : iomem
  accesses : List bus_access

/-- Kernel `ioread32(addr + off)` on a traced window: the value read, and the
window with the read recorded. -/
def traced_ioread32 (m : traced_iomem) (off : Nat) : Nat × traced_iomem :=
  (ioread32 m.window off, { m with accesses := m.accesses ++ [bus_access.read off] })

/-- Kernel `iowrite32(data, addr + off)` on a traced window: the window after
the store, with the write and the 32 bits stored recorded. -/
def traced_iowrite32 (data : Nat) (m : traced_iomem) (off : Nat) : traced_iomem :=
  { window := iowrite32 data m.window off
    accesses := m.accesses ++ [bus_access.write off (data % 2 ^ 32)] }

/-- Lines 118-155 again, statement by statement, on a traced window: the
`ioread32` of line 128 and the `iowrite32` of line 153 are the function's only
accesses to the window, and each is recorded when it is made. -/
def my_gpio_direction_output_traced (mapped_address : traced_iomem) (offset : Nat)
    (value : Int) : Int × traced_iomem :=
  let rd := traced_ioread32 mapped_address CTRL_EXT
  let data := rd.1
  let mapped_address := rd.2
  let data :=
    if offset = 0 then data ||| SDP2_IODIR
    else if offset = 1 then data ||| SDP3_IODIR
    else data
  let data :=
    if value ≠ 0 then
      if offset = 0 then data ||| SDP2_DATA
      else if offset = 1 then data ||| SDP3_DATA
      else data
    else
      if offset = 0 then data &&& not32 SDP2_DATA
      else if offset = 1 then data &&& not32 SDP3_DATA
      else data
  (0, traced_iowrite32 data mapped_address CTRL_EXT)

/-- The number of `iowrite32` calls among the accesses. -/
def count_writes (accesses : List bus_access) : Nat :=
  (accesses.filter fun a =>
    match a with
    | .write _ _ => true
    | .read _ => false).length

/-! ## Bit-level lemmas -/

theorem testBit_eq_false_of_lt32 {r i : Nat} (h : r < 2 ^ 32) (hi : 32 ≤ i) :
    r.testBit i = false :=
  Nat.testBit_lt_two_pow (lt_of_lt_of_le h (Nat.pow_le_pow_right (by decide) hi))

/-- Bits of the `u32` complement of a single-bit mask. -/
theorem testBit_not32_two_pow (k i : Nat) (hk : k < 32) :
    (not32 (2 ^ k)).testBit i = (decide (i < 32) && !decide (k = i)) := by
  have h1 : 2 ^ k % 2 ^ 32 = 2 ^ k :=
    Nat.mod_eq_of_lt (Nat.pow_lt_pow_right (by decide) hk)
  unfold not32
  rw [h1, Nat.testBit_xor, Nat.testBit_two_pow_sub_one, Nat.testBit_two_pow]
  by_cases h : k = i <;> by_cases h2 : i < 32 <;> simp [h, h2]
  omega

/-- `data & (1 << k)` is non-zero exactly when bit `k` of `data` is set. -/
theorem and_two_pow_ne_zero_iff (x k : Nat) : x &&& 2 ^ k ≠ 0 ↔ x.testBit k = true := by
  constructor
  · intro h
    obtain ⟨i, hi⟩ := Nat.ne_zero_implies_bit_true h
    rw [Nat.testBit_and, Nat.testBit_two_pow, Bool.and_eq_true, decide_eq_true_eq] at hi
    rw [hi.2]
    exact hi.1
  · intro h h0
    have hb : (x &&& 2 ^ k).testBit k = true := by
      rw [Nat.testBit_and, Nat.testBit_two_pow, h]
      simp
    rw [h0, Nat.zero_testBit] at hb
    exact Bool.false_ne_true hb

/-- Bits after `data &= ~(1 << k)` on a freshly read register, written back. -/
theorem testBit_clear32 (r k i : Nat) (hk : k < 32) :
    (((r % 2 ^ 32) &&& not32 (2 ^ k)) % 2 ^ 32).testBit i
      = ((r % 2 ^ 32).testBit i && !decide (k = i)) := by
  simp only [Nat.testBit_mod_two_pow, Nat.testBit_and, testBit_not32_two_pow k i hk]
  by_cases h2 : i < 32 <;> simp [h2]

/-- Bits after `data |= (1 << k)` on a freshly read register, written back. -/
theorem testBit_set32 (r k i : Nat) (hk : k < 32) :
    (((r % 2 ^ 32) ||| 2 ^ k) % 2 ^ 32).testBit i
      = ((r % 2 ^ 32).testBit i || decide (k = i)) := by
  simp only [Nat.testBit_mod_two_pow, Nat.testBit_or, Nat.testBit_two_pow]
  by_cases h2 : i < 32
  · simp [h2]
  · have : k ≠ i := by omega
    simp [h2, this]

/-- Bits after `data |= (1 << k); data |= (1 << j)`, written back. -/
theorem testBit_set_set32 (r k j i : Nat) (hk : k < 32) (hj : j < 32) :
    ((((r % 2 ^ 32) ||| 2 ^ k) ||| 2 ^ j) % 2 ^ 32).testBit i
      = (((r % 2 ^ 32).testBit i || decide (k = i)) || decide (j = i)) := by
  simp only [Nat.testBit_mod_two_pow, Nat.testBit_or, Nat.testBit_two_pow]
  by_cases h2 : i < 32
  · simp [h2]
  · have : k ≠ i := by omega
    have : j ≠ i := by omega
    simp [h2, *]

/-- Bits after `data |= (1 << k); data &= ~(1 << j)`, written back. -/
theorem testBit_set_clear32 (r k j i : Nat) (hk : k < 32) (hj : j < 32) :
    ((((r % 2 ^ 32) ||| 2 ^ k) &&& not32 (2 ^ j)) % 2 ^ 32).testBit i
      = (((r % 2 ^ 32).testBit i || decide (k = i)) && !decide (j = i)) := by
  simp only [Nat.testBit_mod_two_pow, Nat.testBit_or, Nat.testBit_and, Nat.testBit_two_pow,
    testBit_not32_two_pow j i hj]
  by_cases h2 : i < 32
  · simp [h2]
  · have : k ≠ i := by omega
    simp [h2, this]

theorem mod32_testBit_of_lt (r : Nat) {i : Nat} (hi : i < 32) :
    (r % 2 ^ 32).testBit i = r.testBit i := by
  rw [Nat.testBit_mod_two_pow]
  simp [hi]

/-! ## Register contents after each bridge operation -/

theorem ctrl_ext_direction_input_0 (dev : device_list) :
    ctrl_ext (my_gpio_direction_input dev 0).2
      = ((ctrl_ext dev % 2 ^ 32) &&& not32 (2 ^ 10)) % 2 ^ 32 := rfl

theorem ctrl_ext_direction_input_1 (dev : device_list) :
    ctrl_ext (my_gpio_direction_input dev 1).2
      = ((ctrl_ext dev % 2 ^ 32) &&& not32 (2 ^ 11)) % 2 ^ 32 := rfl

theorem ctrl_ext_direction_output_0 (dev : device_list) (value : Int) :
    ctrl_ext (my_gpio_direction_output dev 0 value).2
      = if value ≠ 0 then (((ctrl_ext dev % 2 ^ 32) ||| 2 ^ 10) ||| 2 ^ 6) % 2 ^ 32
        else (((ctrl_ext dev % 2 ^ 32) ||| 2 ^ 10) &&& not32 (2 ^ 6)) % 2 ^ 32 := by
  by_cases hv : value = 0 <;> simp [hv, my_gpio_direction_output, ctrl_ext, ioread32, iowrite32, SDP2_IODIR, SDP2_DATA]

theorem ctrl_ext_direction_output_1 (dev : device_list) (value : Int) :
    ctrl_ext (my_gpio_direction_output dev 1 value).2
      = if value ≠ 0 then (((ctrl_ext dev % 2 ^ 32) ||| 2 ^ 11) ||| 2 ^ 7) % 2 ^ 32
        else (((ctrl_ext dev % 2 ^ 32) ||| 2 ^ 11) &&& not32 (2 ^ 7)) % 2 ^ 32 := by
  by_cases hv : value = 0 <;>
    simp [hv, my_gpio_direction_output, ctrl_ext, ioread32, iowrite32, SDP3_IODIR, SDP3_DATA]

theorem ctrl_ext_set_value_0 (dev : device_list) (value : Int) :
    ctrl_ext (my_gpio_set_value dev 0 value)
      = if value ≠ 0 then ((ctrl_ext dev % 2 ^ 32) ||| 2 ^ 6) % 2 ^ 32
        else ((ctrl_ext dev % 2 ^ 32) &&& not32 (2 ^ 6)) % 2 ^ 32 := by
  by_cases hv : value = 0 <;>
    simp [hv, my_gpio_set_value, ctrl_ext, ioread32, iowrite32, SDP2_DATA]

theorem ctrl_ext_set_value_1 (dev : device_list) (value : Int) :
    ctrl_ext (my_gpio_set_value dev 1 value)
      = if value ≠ 0 then ((ctrl_ext dev % 2 ^ 32) ||| 2 ^ 7) % 2 ^ 32
        else ((ctrl_ext dev % 2 ^ 32) &&& not32 (2 ^ 7)) % 2 ^ 32 := by
  by_cases hv : value = 0 <;>
    simp [hv, my_gpio_set_value, ctrl_ext, ioread32, iowrite32, SDP3_DATA]

/-- Pin 0 to input: bit 10 is cleared, the other bits are those read. -/
theorem testBit_direction_input_0 (dev : device_list) (i : Nat) :
    (ctrl_ext (my_gpio_direction_input dev 0).2).testBit i
      = ((ctrl_ext dev % 2 ^ 32).testBit i && !decide (10 = i)) := by
  rw [ctrl_ext_direction_input_0]
  exact testBit_clear32 _ 10 i (by decide)

/-- Pin 1 to input: bit 11 is cleared, the other bits are those read. -/
theorem testBit_direction_input_1 (dev : device_list) (i : Nat) :
    (ctrl_ext (my_gpio_direction_input dev 1).2).testBit i
      = ((ctrl_ext dev % 2 ^ 32).testBit i && !decide (11 = i)) := by
  rw [ctrl_ext_direction_input_1]
  exact testBit_clear32 _ 11 i (by decide)

/-- Pin 0 to output: bit 10 is set, then bit 6 is written from `value`. -/
theorem testBit_direction_output_0 (dev : device_list) (value : Int) (i : Nat) :
    (ctrl_ext (my_gpio_direction_output dev 0 value).2).testBit i
      = if value ≠ 0 then (((ctrl_ext dev % 2 ^ 32).testBit i || decide (10 = i)) || decide (6 = i))
        else (((ctrl_ext dev % 2 ^ 32).testBit i || decide (10 = i)) && !decide (6 = i)) := by
  rw [ctrl_ext_direction_output_0]
  by_cases hv : value = 0
  · rw [if_neg (not_not.mpr hv), if_neg (not_not.mpr hv)]
    exact testBit_set_clear32 _ 10 6 i (by decide) (by decide)
  · rw [if_pos hv, if_pos hv]
    exact testBit_set_set32 _ 10 6 i (by decide) (by decide)

/-- Pin 1 to output: bit 11 is set, then bit 7 is written from `value`. -/
theorem testBit_direction_output_1 (dev : device_list) (value : Int) (i : Nat) :
    (ctrl_ext (my_gpio_direction_output dev 1 value).2).testBit i
      = if value ≠ 0 then (((ctrl_ext dev % 2 ^ 32).testBit i || decide (11 = i)) || decide (7 = i))
        else (((ctrl_ext dev % 2 ^ 32).testBit i || decide (11 = i)) && !decide (7 = i)) := by
  rw [ctrl_ext_direction_output_1]
  by_cases hv : value = 0
  · rw [if_neg (not_not.mpr hv), if_neg (not_not.mpr hv)]
    exact testBit_set_clear32 _ 11 7 i (by decide) (by decide)
  · rw [if_pos hv, if_pos hv]
    exact testBit_set_set32 _ 11 7 i (by decide) (by decide)

/-- Pin 0 data write: bit 6 is written from `value`. -/
theorem testBit_set_value_0 (dev : device_list) (value : Int) (i : Nat) :
    (ctrl_ext (my_gpio_set_value dev 0 value)).testBit i
      = if value ≠ 0 then ((ctrl_ext dev % 2 ^ 32).testBit i || decide (6 = i))
        else ((ctrl_ext dev % 2 ^ 32).testBit i && !decide (6 = i)) := by
  rw [ctrl_ext_set_value_0]
  by_cases hv : value = 0
  · rw [if_neg (not_not.mpr hv), if_neg (not_not.mpr hv)]
    exact testBit_clear32 _ 6 i (by decide)
  · rw [if_pos hv, if_pos hv]
    exact testBit_set32 _ 6 i (by decide)

/-- Pin 1 data write: bit 7 is written from `value`. -/
theorem testBit_set_value_1 (dev : device_list) (value : Int) (i : Nat) :
    (ctrl_ext (my_gpio_set_value dev 1 value)).testBit i
      = if value ≠ 0 then ((ctrl_ext dev % 2 ^ 32).testBit i || decide (7 = i))
        else ((ctrl_ext dev % 2 ^ 32).testBit i && !decide (7 = i)) := by
  rw [ctrl_ext_set_value_1]
  by_cases hv : value = 0
  · rw [if_neg (not_not.mpr hv), if_neg (not_not.mpr hv)]
    exact testBit_clear32 _ 7 i (by decide)
  · rw [if_pos hv, if_pos hv]
    exact testBit_set32 _ 7 i (by decide)

/-- Reading pin 0 returns bit 6 of the register and writes nothing. -/
theorem get_value_0 (dev : device_list) :
    my_gpio_get_value dev 0 = (if (ctrl_ext dev).testBit 6 then 1 else 0, dev) := by
  have hget : my_gpio_get_value dev 0
      = if ctrl_ext dev % 2 ^ 32 &&& 2 ^ 6 ≠ 0 then (1, dev) else (0, dev) := rfl
  have h := and_two_pow_ne_zero_iff (ctrl_ext dev % 2 ^ 32) 6
  rw [mod32_testBit_of_lt _ (by decide)] at h
  by_cases hb : (ctrl_ext dev).testBit 6 = true
  · rw [hget, if_pos (h.mpr hb), if_pos hb]
  · rw [hget, if_neg (fun hne => hb (h.mp hne)), if_neg hb]

/-- Reading pin 1 returns bit 7 of the register and writes nothing. -/
theorem get_value_1 (dev : device_list) :
    my_gpio_get_value dev 1 = (if (ctrl_ext dev).testBit 7 then 1 else 0, dev) := by
  have hget : my_gpio_get_value dev 1
      = if ctrl_ext dev % 2 ^ 32 &&& 2 ^ 7 ≠ 0 then (1, dev) else (0, dev) := rfl
  have h := and_two_pow_ne_zero_iff (ctrl_ext dev % 2 ^ 32) 7
  rw [mod32_testBit_of_lt _ (by decide)] at h
  by_cases hb : (ctrl_ext dev).testBit 7 = true
  · rw [hget, if_pos (h.mpr hb), if_pos hb]
  · rw [hget, if_neg (fun hne => hb (h.mp hne)), if_neg hb]

/-! ## Open-drain line driver -/

/-- C1: for every 32-bit register content, `MiniPTM_Set_SCL` with a non-zero
state leaves bit 11 (pin 1 direction) cleared and `MiniPTM_Set_SDA` with a
non-zero state leaves bit 10 (pin 0 direction) cleared, whatever the prior
direction and data bits were; every other bit keeps its value. -/
theorem set_line_high_releases_pin (dev : device_list) (state : Int)
    (h32 : ctrl_ext dev < 2 ^ 32) (hs : state ≠ 0) :
    ((ctrl_ext (MiniPTM_Set_SCL dev state)).testBit 11 = false ∧
      ∀ i, i ≠ 11 →
        (ctrl_ext (MiniPTM_Set_SCL dev state)).testBit i = (ctrl_ext dev).testBit i) ∧
    ((ctrl_ext (MiniPTM_Set_SDA dev state)).testBit 10 = false ∧
      ∀ i, i ≠ 10 →
        (ctrl_ext (MiniPTM_Set_SDA dev state)).testBit i = (ctrl_ext dev).testBit i) := by
  have hscl : MiniPTM_Set_SCL dev state = (my_gpio_direction_input dev 1).2 := by
    unfold MiniPTM_Set_SCL
    rw [if_pos hs]
  have hsda : MiniPTM_Set_SDA dev state = (my_gpio_direction_input dev 0).2 := by
    unfold MiniPTM_Set_SDA
    rw [if_pos hs]
  rw [hscl, hsda]
  simp only [testBit_direction_input_0, testBit_direction_input_1, Nat.mod_eq_of_lt h32]
  refine ⟨⟨by simp, ?_⟩, ⟨by simp, ?_⟩⟩
  · intro i hi
    have : ¬ 11 = i := fun h => hi h.symm
    simp [this]
  · intro i hi
    have : ¬ 10 = i := fun h => hi h.symm
    simp [this]

/-- C1 at the all-ones register with state 1. -/
theorem set_line_high_releases_pin_witness :
    ctrl_ext dev_all_ones < 2 ^ 32 ∧ (1 : Int) ≠ 0 ∧
    (((ctrl_ext (MiniPTM_Set_SCL dev_all_ones 1)).testBit 11 = false ∧
      ∀ i, i ≠ 11 →
        (ctrl_ext (MiniPTM_Set_SCL dev_all_ones 1)).testBit i
          = (ctrl_ext dev_all_ones).testBit i) ∧
    ((ctrl_ext (MiniPTM_Set_SDA dev_all_ones 1)).testBit 10 = false ∧
      ∀ i, i ≠ 10 →
        (ctrl_ext (MiniPTM_Set_SDA dev_all_ones 1)).testBit i
          = (ctrl_ext dev_all_ones).testBit i)) :=
  ⟨by decide, by decide, set_line_high_releases_pin dev_all_ones 1 (by decide) (by decide)⟩

/-- C2: for every 32-bit register content, `MiniPTM_Set_SCL` with state 0
leaves bit 11 set and bit 7 cleared, and `MiniPTM_Set_SDA` with state 0 leaves
bit 10 set and bit 6 cleared; every other bit keeps its value. -/
theorem set_line_low_drives_pin_low (dev : device_list) (h32 : ctrl_ext dev < 2 ^ 32) :
    ((ctrl_ext (MiniPTM_Set_SCL dev 0)).testBit 11 = true ∧
      (ctrl_ext (MiniPTM_Set_SCL dev 0)).testBit 7 = false ∧
      ∀ i, i ≠ 11 → i ≠ 7 →
        (ctrl_ext (MiniPTM_Set_SCL dev 0)).testBit i = (ctrl_ext dev).testBit i) ∧
    ((ctrl_ext (MiniPTM_Set_SDA dev 0)).testBit 10 = true ∧
      (ctrl_ext (MiniPTM_Set_SDA dev 0)).testBit 6 = false ∧
      ∀ i, i ≠ 10 → i ≠ 6 →
        (ctrl_ext (MiniPTM_Set_SDA dev 0)).testBit i = (ctrl_ext dev).testBit i) := by
  have hscl : MiniPTM_Set_SCL dev 0 = (my_gpio_direction_output dev 1 0).2 := rfl
  have hsda : MiniPTM_Set_SDA dev 0 = (my_gpio_direction_output dev 0 0).2 := rfl
  rw [hscl, hsda]
  simp only [testBit_direction_output_0, testBit_direction_output_1, Nat.mod_eq_of_lt h32]
  refine ⟨⟨by simp, by simp, ?_⟩, ⟨by simp, by simp, ?_⟩⟩
  · intro i h1 h2
    have : ¬ 11 = i := fun h => h1 h.symm
    have : ¬ 7 = i := fun h => h2 h.symm
    simp [*]
  · intro i h1 h2
    have : ¬ 10 = i := fun h => h1 h.symm
    have : ¬ 6 = i := fun h => h2 h.symm
    simp [*]

/-- C2 at the all-ones register. -/
theorem set_line_low_drives_pin_low_witness :
    ctrl_ext dev_all_ones < 2 ^ 32 ∧
    (((ctrl_ext (MiniPTM_Set_SCL dev_all_ones 0)).testBit 11 = true ∧
      (ctrl_ext (MiniPTM_Set_SCL dev_all_ones 0)).testBit 7 = false ∧
      ∀ i, i ≠ 11 → i ≠ 7 →
        (ctrl_ext (MiniPTM_Set_SCL dev_all_ones 0)).testBit i
          = (ctrl_ext dev_all_ones).testBit i) ∧
    ((ctrl_ext (MiniPTM_Set_SDA dev_all_ones 0)).testBit 10 = true ∧
      (ctrl_ext (MiniPTM_Set_SDA dev_all_ones 0)).testBit 6 = false ∧
      ∀ i, i ≠ 10 → i ≠ 6 →
        (ctrl_ext (MiniPTM_Set_SDA dev_all_ones 0)).testBit i
          = (ctrl_ext dev_all_ones).testBit i)) :=
  ⟨by decide, set_line_low_drives_pin_low dev_all_ones (by decide)⟩

/-- C3: for every 32-bit register content `r`, `MiniPTM_Read_SCL` returns 1
when bit 7 of `r` is set and 0 otherwise and leaves `r` with bit 11 cleared;
`MiniPTM_Read_SDA` returns 1 when bit 6 of `r` is set and 0 otherwise and
leaves `r` with bit 10 cleared. Each read is `my_gpio_direction_input` on the
pin followed by `my_gpio_get_value` on the same pin. -/
theorem read_line_is_input_then_get (dev : device_list) (h32 : ctrl_ext dev < 2 ^ 32) :
    ((MiniPTM_Read_SCL dev).1 = (if (ctrl_ext dev).testBit 7 then 1 else 0) ∧
      (ctrl_ext (MiniPTM_Read_SCL dev).2).testBit 11 = false ∧
      (∀ i, i ≠ 11 →
        (ctrl_ext (MiniPTM_Read_SCL dev).2).testBit i = (ctrl_ext dev).testBit i) ∧
      MiniPTM_Read_SCL dev = my_gpio_get_value (my_gpio_direction_input dev 1).2 1) ∧
    ((MiniPTM_Read_SDA dev).1 = (if (ctrl_ext dev).testBit 6 then 1 else 0) ∧
      (ctrl_ext (MiniPTM_Read_SDA dev).2).testBit 10 = false ∧
      (∀ i, i ≠ 10 →
        (ctrl_ext (MiniPTM_Read_SDA dev).2).testBit i = (ctrl_ext dev).testBit i) ∧
      MiniPTM_Read_SDA dev = my_gpio_get_value (my_gpio_direction_input dev 0).2 0) := by
  have hscl : MiniPTM_Read_SCL dev = my_gpio_get_value (my_gpio_direction_input dev 1).2 1 :=
    rfl
  have hsda : MiniPTM_Read_SDA dev = my_gpio_get_value (my_gpio_direction_input dev 0).2 0 :=
    rfl
  refine ⟨⟨?_, ?_, ?_, hscl⟩, ⟨?_, ?_, ?_, hsda⟩⟩
  · rw [hscl, get_value_1, testBit_direction_input_1, Nat.mod_eq_of_lt h32]
    simp
  · rw [hscl, get_value_1, testBit_direction_input_1]
    simp
  · intro i hi
    have : ¬ 11 = i := fun h => hi h.symm
    rw [hscl, get_value_1, testBit_direction_input_1, Nat.mod_eq_of_lt h32]
    simp [this]
  · rw [hsda, get_value_0, testBit_direction_input_0, Nat.mod_eq_of_lt h32]
    simp
  · rw [hsda, get_value_0, testBit_direction_input_0]
    simp
  · intro i hi
    have : ¬ 10 = i := fun h => hi h.symm
    rw [hsda, get_value_0, testBit_direction_input_0, Nat.mod_eq_of_lt h32]
    simp [this]

/-- C3 at the all-ones register: both reads return 1. -/
theorem read_line_is_input_then_get_witness :
    ctrl_ext dev_all_ones < 2 ^ 32 ∧
    (((MiniPTM_Read_SCL dev_all_ones).1 = (if (ctrl_ext dev_all_ones).testBit 7 then 1 else 0) ∧
      (ctrl_ext (MiniPTM_Read_SCL dev_all_ones).2).testBit 11 = false ∧
      (∀ i, i ≠ 11 →
        (ctrl_ext (MiniPTM_Read_SCL dev_all_ones).2).testBit i
          = (ctrl_ext dev_all_ones).testBit i) ∧
      MiniPTM_Read_SCL dev_all_ones
        = my_gpio_get_value (my_gpio_direction_input dev_all_ones 1).2 1) ∧
    ((MiniPTM_Read_SDA dev_all_ones).1 = (if (ctrl_ext dev_all_ones).testBit 6 then 1 else 0) ∧
      (ctrl_ext (MiniPTM_Read_SDA dev_all_ones).2).testBit 10 = false ∧
      (∀ i, i ≠ 10 →
        (ctrl_ext (MiniPTM_Read_SDA dev_all_ones).2).testBit i
          = (ctrl_ext dev_all_ones).testBit i) ∧
      MiniPTM_Read_SDA dev_all_ones
        = my_gpio_get_value (my_gpio_direction_input dev_all_ones 0).2 0)) :=
  ⟨by decide, read_line_is_input_then_get dev_all_ones (by decide)⟩

/-- One line operation keeps "no pin is an output with its data bit set". -/
theorem drives_high_apply (dev : device_list) (op : LineOp)
    (h : drives_high (ctrl_ext dev) = false) :
    drives_high (ctrl_ext (op.apply dev)) = false := by
  have b6 := mod32_testBit_of_lt (ctrl_ext dev) (show 6 < 32 by decide)
  have b7 := mod32_testBit_of_lt (ctrl_ext dev) (show 7 < 32 by decide)
  have b10 := mod32_testBit_of_lt (ctrl_ext dev) (show 10 < 32 by decide)
  have b11 := mod32_testBit_of_lt (ctrl_ext dev) (show 11 < 32 by decide)
  unfold drives_high at h ⊢
  cases op with
  | read_scl =>
    have e : LineOp.apply dev .read_scl = (my_gpio_direction_input dev 1).2 := by
      show (MiniPTM_Read_SCL dev).2 = _
      unfold MiniPTM_Read_SCL
      rw [get_value_1]
    rw [e]
    simp only [testBit_direction_input_1, b6, b7, b10, b11]
    revert h
    cases (ctrl_ext dev).testBit 6 <;> cases (ctrl_ext dev).testBit 10 <;> simp
  | read_sda =>
    have e : LineOp.apply dev .read_sda = (my_gpio_direction_input dev 0).2 := by
      show (MiniPTM_Read_SDA dev).2 = _
      unfold MiniPTM_Read_SDA
      rw [get_value_0]
    rw [e]
    simp only [testBit_direction_input_0, b6, b7, b10, b11]
    revert h
    cases (ctrl_ext dev).testBit 7 <;> cases (ctrl_ext dev).testBit 11 <;> simp
  | set_scl state =>
    show ((ctrl_ext (MiniPTM_Set_SCL dev state)).testBit 10
        && (ctrl_ext (MiniPTM_Set_SCL dev state)).testBit 6
      || (ctrl_ext (MiniPTM_Set_SCL dev state)).testBit 11
        && (ctrl_ext (MiniPTM_Set_SCL dev state)).testBit 7) = false
    unfold MiniPTM_Set_SCL
    by_cases hs : state = 0
    · rw [if_neg (not_not.mpr hs)]
      simp only [testBit_direction_output_1, b6, b7, b10, b11]
      revert h
      cases (ctrl_ext dev).testBit 6 <;> cases (ctrl_ext dev).testBit 10 <;> simp
    · rw [if_pos hs]
      simp only [testBit_direction_input_1, b6, b7, b10, b11]
      revert h
      cases (ctrl_ext dev).testBit 6 <;> cases (ctrl_ext dev).testBit 10 <;> simp
  | set_sda state =>
    show ((ctrl_ext (MiniPTM_Set_SDA dev state)).testBit 10
        && (ctrl_ext (MiniPTM_Set_SDA dev state)).testBit 6
      || (ctrl_ext (MiniPTM_Set_SDA dev state)).testBit 11
        && (ctrl_ext (MiniPTM_Set_SDA dev state)).testBit 7) = false
    unfold MiniPTM_Set_SDA
    by_cases hs : state = 0
    · rw [if_neg (not_not.mpr hs)]
      simp only [testBit_direction_output_0, b6, b7, b10, b11]
      revert h
      cases (ctrl_ext dev).testBit 7 <;> cases (ctrl_ext dev).testBit 11 <;> simp
    · rw [if_pos hs]
      simp only [testBit_direction_input_0, b6, b7, b10, b11]
      revert h
      cases (ctrl_ext dev).testBit 7 <;> cases (ctrl_ext dev).testBit 11 <;> simp

/-- C4: the line driver never actively drives a line high. From any register
content in which neither pin has both its direction bit and its data bit set,
every finite sequence of `MiniPTM_Read_SCL`, `MiniPTM_Read_SDA`,
`MiniPTM_Set_SCL` and `MiniPTM_Set_SDA` calls, with any state arguments, ends
in a register content with the same property. -/
theorem line_ops_never_drive_high (dev : device_list) (ops : List LineOp)
    (h : drives_high (ctrl_ext dev) = false) :
    drives_high (ctrl_ext (run_line_ops dev ops)) = false := by
  induction ops generalizing dev with
  | nil => exact h
  | cons op ops ih => exact ih (op.apply dev) (drives_high_apply dev op h)

/-- C4 on a released bus, through a sequence that pulls both lines low and
releases them again. -/
theorem line_ops_never_drive_high_witness :
    drives_high (ctrl_ext dev_released) = false ∧
    drives_high (ctrl_ext (run_line_ops dev_released
      [.set_sda 0, .set_scl 0, .read_sda, .set_scl 1, .read_scl, .set_sda 1])) = false :=
  ⟨by decide, line_ops_never_drive_high dev_released _ (by decide)⟩

/-! ## Register bridge -/

/-- C5: the four masks are pairwise disjoint, and for every register content
no bridge operation addressed to pin 0 changes bit 11 or bit 7 and none
addressed to pin 1 changes bit 10 or bit 6. -/
theorem pin_bits_are_disjoint_and_framed (dev : device_list) (value : Int) :
    (SDP2_IODIR = 2 ^ 10 ∧ SDP2_DATA = 2 ^ 6 ∧ SDP3_IODIR = 2 ^ 11 ∧ SDP3_DATA = 2 ^ 7) ∧
    (SDP2_IODIR &&& SDP2_DATA = 0 ∧ SDP2_IODIR &&& SDP3_IODIR = 0 ∧
      SDP2_IODIR &&& SDP3_DATA = 0 ∧ SDP2_DATA &&& SDP3_IODIR = 0 ∧
      SDP2_DATA &&& SDP3_DATA = 0 ∧ SDP3_IODIR &&& SDP3_DATA = 0) ∧
    (same_bit 11 dev (my_gpio_direction_input dev 0).2 ∧
      same_bit 7 dev (my_gpio_direction_input dev 0).2 ∧
      same_bit 11 dev (my_gpio_direction_output dev 0 value).2 ∧
      same_bit 7 dev (my_gpio_direction_output dev 0 value).2 ∧
      same_bit 11 dev (my_gpio_set_value dev 0 value) ∧
      same_bit 7 dev (my_gpio_set_value dev 0 value) ∧
      same_bit 11 dev (my_gpio_get_value dev 0).2 ∧
      same_bit 7 dev (my_gpio_get_value dev 0).2) ∧
    (same_bit 10 dev (my_gpio_direction_input dev 1).2 ∧
      same_bit 6 dev (my_gpio_direction_input dev 1).2 ∧
      same_bit 10 dev (my_gpio_direction_output dev 1 value).2 ∧
      same_bit 6 dev (my_gpio_direction_output dev 1 value).2 ∧
      same_bit 10 dev (my_gpio_set_value dev 1 value) ∧
      same_bit 6 dev (my_gpio_set_value dev 1 value) ∧
      same_bit 10 dev (my_gpio_get_value dev 1).2 ∧
      same_bit 6 dev (my_gpio_get_value dev 1).2) := by
  have b6 := mod32_testBit_of_lt (ctrl_ext dev) (show 6 < 32 by decide)
  have b7 := mod32_testBit_of_lt (ctrl_ext dev) (show 7 < 32 by decide)
  have b10 := mod32_testBit_of_lt (ctrl_ext dev) (show 10 < 32 by decide)
  have b11 := mod32_testBit_of_lt (ctrl_ext dev) (show 11 < 32 by decide)
  refine ⟨by decide, by decide, ?_, ?_⟩
  · unfold same_bit
    rw [get_value_0]
    simp only [testBit_direction_input_0, testBit_direction_output_0, testBit_set_value_0,
      b7, b11]
    by_cases hv : value = 0 <;> simp [hv]
  · unfold same_bit
    rw [get_value_1]
    simp only [testBit_direction_input_1, testBit_direction_output_1, testBit_set_value_1,
      b6, b10]
    by_cases hv : value = 0 <;> simp [hv]

/-- C6: for pin 0 and pin 1 and every 32-bit register content,
`my_gpio_direction_input` returns 0 and clears exactly the pin's direction
bit (bit 10 for pin 0, bit 11 for pin 1); no other bit changes. -/
theorem direction_input_clears_direction_bit (dev : device_list)
    (h32 : ctrl_ext dev < 2 ^ 32) :
    ((my_gpio_direction_input dev 0).1 = 0 ∧
      (ctrl_ext (my_gpio_direction_input dev 0).2).testBit 10 = false ∧
      ∀ i, i ≠ 10 →
        (ctrl_ext (my_gpio_direction_input dev 0).2).testBit i = (ctrl_ext dev).testBit i) ∧
    ((my_gpio_direction_input dev 1).1 = 0 ∧
      (ctrl_ext (my_gpio_direction_input dev 1).2).testBit 11 = false ∧
      ∀ i, i ≠ 11 →
        (ctrl_ext (my_gpio_direction_input dev 1).2).testBit i = (ctrl_ext dev).testBit i) := by
  simp only [testBit_direction_input_0, testBit_direction_input_1, Nat.mod_eq_of_lt h32]
  refine ⟨⟨rfl, by simp, ?_⟩, ⟨rfl, by simp, ?_⟩⟩
  · intro i hi
    have : ¬ 10 = i := fun h => hi h.symm
    simp [this]
  · intro i hi
    have : ¬ 11 = i := fun h => hi h.symm
    simp [this]

/-- C6 at the all-ones register. -/
theorem direction_input_clears_direction_bit_witness :
    ctrl_ext dev_all_ones < 2 ^ 32 ∧
    (((my_gpio_direction_input dev_all_ones 0).1 = 0 ∧
      (ctrl_ext (my_gpio_direction_input dev_all_ones 0).2).testBit 10 = false ∧
      ∀ i, i ≠ 10 →
        (ctrl_ext (my_gpio_direction_input dev_all_ones 0).2).testBit i
          = (ctrl_ext dev_all_ones).testBit i) ∧
    ((my_gpio_direction_input dev_all_ones 1).1 = 0 ∧
      (ctrl_ext (my_gpio_direction_input dev_all_ones 1).2).testBit 11 = false ∧
      ∀ i, i ≠ 11 →
        (ctrl_ext (my_gpio_direction_input dev_all_ones 1).2).testBit i
          = (ctrl_ext dev_all_ones).testBit i)) :=
  ⟨by decide, direction_input_clears_direction_bit dev_all_ones (by decide)⟩

/-- C7 as stated fails: on the all-zero register, `my_gpio_direction_output`
for pin 0 with value 1 changes the data bit (bit 6) from 0 to 1. -/
theorem direction_output_keeps_data_bit_counterexample :
    ctrl_ext dev_zero < 2 ^ 32 ∧
    (ctrl_ext dev_zero).testBit 6 = false ∧
    (ctrl_ext (my_gpio_direction_output dev_zero 0 1).2).testBit 6 = true :=
  ⟨by decide, by decide, by decide⟩

/-- C7 amended: for pin 0 and pin 1, every value and every 32-bit register
content, `my_gpio_direction_output` returns 0, sets the pin's direction bit,
writes the pin's data bit from `value` (set when non-zero, cleared when zero)
and leaves every other bit unchanged. -/
theorem direction_output_sets_direction_and_data (dev : device_list) (value : Int)
    (h32 : ctrl_ext dev < 2 ^ 32) :
    ((my_gpio_direction_output dev 0 value).1 = 0 ∧
      (ctrl_ext (my_gpio_direction_output dev 0 value).2).testBit 10 = true ∧
      (ctrl_ext (my_gpio_direction_output dev 0 value).2).testBit 6 = decide (value ≠ 0) ∧
      ∀ i, i ≠ 10 → i ≠ 6 →
        (ctrl_ext (my_gpio_direction_output dev 0 value).2).testBit i
          = (ctrl_ext dev).testBit i) ∧
    ((my_gpio_direction_output dev 1 value).1 = 0 ∧
      (ctrl_ext (my_gpio_direction_output dev 1 value).2).testBit 11 = true ∧
      (ctrl_ext (my_gpio_direction_output dev 1 value).2).testBit 7 = decide (value ≠ 0) ∧
      ∀ i, i ≠ 11 → i ≠ 7 →
        (ctrl_ext (my_gpio_direction_output dev 1 value).2).testBit i
          = (ctrl_ext dev).testBit i) := by
  simp only [testBit_direction_output_0, testBit_direction_output_1, Nat.mod_eq_of_lt h32]
  refine ⟨⟨rfl, ?_, ?_, ?_⟩, ⟨rfl, ?_, ?_, ?_⟩⟩
  · by_cases hv : value = 0 <;> simp [hv]
  · by_cases hv : value = 0 <;> simp [hv]
  · intro i h1 h2
    have : ¬ 10 = i := fun h => h1 h.symm
    have : ¬ 6 = i := fun h => h2 h.symm
    by_cases hv : value = 0 <;> simp [hv, *]
  · by_cases hv : value = 0 <;> simp [hv]
  · by_cases hv : value = 0 <;> simp [hv]
  · intro i h1 h2
    have : ¬ 11 = i := fun h => h1 h.symm
    have : ¬ 7 = i := fun h => h2 h.symm
    by_cases hv : value = 0 <;> simp [hv, *]

/-- C7 amended, at the all-zero register with value 1. -/
theorem direction_output_sets_direction_and_data_witness :
    ctrl_ext dev_zero < 2 ^ 32 ∧
    (((my_gpio_direction_output dev_zero 0 1).1 = 0 ∧
      (ctrl_ext (my_gpio_direction_output dev_zero 0 1).2).testBit 10 = true ∧
      (ctrl_ext (my_gpio_direction_output dev_zero 0 1).2).testBit 6
        = decide ((1 : Int) ≠ 0) ∧
      ∀ i, i ≠ 10 → i ≠ 6 →
        (ctrl_ext (my_gpio_direction_output dev_zero 0 1).2).testBit i
          = (ctrl_ext dev_zero).testBit i) ∧
    ((my_gpio_direction_output dev_zero 1 1).1 = 0 ∧
      (ctrl_ext (my_gpio_direction_output dev_zero 1 1).2).testBit 11 = true ∧
      (ctrl_ext (my_gpio_direction_output dev_zero 1 1).2).testBit 7
        = decide ((1 : Int) ≠ 0) ∧
      ∀ i, i ≠ 11 → i ≠ 7 →
        (ctrl_ext (my_gpio_direction_output dev_zero 1 1).2).testBit i
          = (ctrl_ext dev_zero).testBit i)) :=
  ⟨by decide, direction_output_sets_direction_and_data dev_zero 1 (by decide)⟩

/-- C8: for pin 0 and pin 1, every value in {0,1} and every register content,
`my_gpio_set_value(pin, value)` followed by `my_gpio_get_value(pin)` returns
`value`, the pin's data bit in the register then equals `value`, and the other
pin's data bit is the one the register had before. -/
theorem set_value_then_get_value (dev : device_list) (value : Int)
    (hv : value = 0 ∨ value = 1) :
    ((my_gpio_get_value (my_gpio_set_value dev 0 value) 0).1 = value ∧
      (if (ctrl_ext (my_gpio_get_value (my_gpio_set_value dev 0 value) 0).2).testBit 6
        then (1 : Int) else 0) = value ∧
      (ctrl_ext (my_gpio_get_value (my_gpio_set_value dev 0 value) 0).2).testBit 7
        = (ctrl_ext dev).testBit 7) ∧
    ((my_gpio_get_value (my_gpio_set_value dev 1 value) 1).1 = value ∧
      (if (ctrl_ext (my_gpio_get_value (my_gpio_set_value dev 1 value) 1).2).testBit 7
        then (1 : Int) else 0) = value ∧
      (ctrl_ext (my_gpio_get_value (my_gpio_set_value dev 1 value) 1).2).testBit 6
        = (ctrl_ext dev).testBit 6) := by
  have b6 := mod32_testBit_of_lt (ctrl_ext dev) (show 6 < 32 by decide)
  have b7 := mod32_testBit_of_lt (ctrl_ext dev) (show 7 < 32 by decide)
  rw [get_value_0, get_value_1]
  simp only [testBit_set_value_0, testBit_set_value_1, b6, b7]
  rcases hv with hv | hv <;> subst hv <;> simp

/-- C8 at the all-zero register with value 1. -/
theorem set_value_then_get_value_witness :
    ((1 : Int) = 0 ∨ (1 : Int) = 1) ∧
    (((my_gpio_get_value (my_gpio_set_value dev_zero 0 1) 0).1 = 1 ∧
      (if (ctrl_ext (my_gpio_get_value (my_gpio_set_value dev_zero 0 1) 0).2).testBit 6
        then (1 : Int) else 0) = 1 ∧
      (ctrl_ext (my_gpio_get_value (my_gpio_set_value dev_zero 0 1) 0).2).testBit 7
        = (ctrl_ext dev_zero).testBit 7) ∧
    ((my_gpio_get_value (my_gpio_set_value dev_zero 1 1) 1).1 = 1 ∧
      (if (ctrl_ext (my_gpio_get_value (my_gpio_set_value dev_zero 1 1) 1).2).testBit 7
        then (1 : Int) else 0) = 1 ∧
      (ctrl_ext (my_gpio_get_value (my_gpio_set_value dev_zero 1 1) 1).2).testBit 6
        = (ctrl_ext dev_zero).testBit 6)) :=
  ⟨Or.inr rfl, set_value_then_get_value dev_zero 1 (Or.inr rfl)⟩

/-- C9: for pin 0 and pin 1 and every register content, `my_gpio_get_value`
returns 1 when the pin's data bit is set (bit 6 for pin 0, bit 7 for pin 1)
and 0 otherwise, whatever the direction bit and the other bits are: two
register contents that agree on the data bit give the same result. The call
leaves the device, and so the register, unchanged. -/
theorem get_value_reads_data_bit (dev : device_list) :
    ((my_gpio_get_value dev 0).1 = (if (ctrl_ext dev).testBit 6 then 1 else 0) ∧
      (my_gpio_get_value dev 0).2 = dev ∧
      ∀ other : device_list, (ctrl_ext other).testBit 6 = (ctrl_ext dev).testBit 6 →
        (my_gpio_get_value other 0).1 = (my_gpio_get_value dev 0).1) ∧
    ((my_gpio_get_value dev 1).1 = (if (ctrl_ext dev).testBit 7 then 1 else 0) ∧
      (my_gpio_get_value dev 1).2 = dev ∧
      ∀ other : device_list, (ctrl_ext other).testBit 7 = (ctrl_ext dev).testBit 7 →
        (my_gpio_get_value other 1).1 = (my_gpio_get_value dev 1).1) := by
  refine ⟨⟨?_, ?_, ?_⟩, ⟨?_, ?_, ?_⟩⟩
  · rw [get_value_0]
  · rw [get_value_0]
  · intro other h
    rw [get_value_0, get_value_0, h]
  · rw [get_value_1]
  · rw [get_value_1]
  · intro other h
    rw [get_value_1, get_value_1, h]

/-! ## Device matcher -/

/-- `memcmp` returns 0 exactly when the first `n` octets agree. -/
theorem memcmp_eq_zero_iff (a b : List Nat) (n : Nat) :
    memcmp a b n = 0 ↔ a.take n = b.take n := by
  induction n generalizing a b with
  | zero => simp [memcmp]
  | succ n ih =>
    cases a with
    | nil =>
      cases b with
      | nil => simp [memcmp]
      | cons y ys => simp [memcmp]
    | cons x xs =>
      cases b with
      | nil => simp [memcmp]
      | cons y ys =>
        by_cases hxy : x = y
        · simp [memcmp, hxy, ih]
        · have hne : (x : Int) - (y : Int) ≠ 0 := by omega
          simp [memcmp, hxy, hne]

/-- The loop answers `true` exactly when one of the entries it is given
agrees with the first `ETH_ALEN` octets of the address. -/
theorem is_mac_address_known_loop_iff (mac_addr : List Nat) (entries : List (List Nat)) :
    (is_mac_address_known_loop mac_addr entries).1 = true
      ↔ ∃ known ∈ entries, mac_addr.take ETH_ALEN = known.take ETH_ALEN := by
  induction entries with
  | nil => simp [is_mac_address_known_loop]
  | cons known rest ih =>
    by_cases h : memcmp mac_addr known ETH_ALEN = 0
    · have h2 := (memcmp_eq_zero_iff _ _ _).mp h
      simp [is_mac_address_known_loop, h, h2]
    · have h2 : ¬ mac_addr.take ETH_ALEN = known.take ETH_ALEN :=
        fun e => h ((memcmp_eq_zero_iff _ _ _).mpr e)
      simp [is_mac_address_known_loop, h, h2, ih]

/-- `is_mac_address_known` answers `true` exactly when the first `ETH_ALEN`
octets of the address are an entry of `known_mac_addresses`. -/
theorem is_mac_address_known_iff (mac_addr : List Nat) :
    (is_mac_address_known mac_addr).1 = true
      ↔ mac_addr.take ETH_ALEN ∈ known_mac_addresses := by
  unfold is_mac_address_known
  rw [is_mac_address_known_loop_iff]
  constructor
  · rintro ⟨known, hmem, heq⟩
    have hlen : known.take ETH_ALEN = known := by
      revert hmem
      simp only [known_mac_addresses, List.mem_cons, List.mem_singleton,
        List.not_mem_nil, or_false]
      rintro (rfl | rfl) <;> rfl
    rw [heq, hlen]
    exact hmem
  · intro hmem
    refine ⟨_, hmem, ?_⟩
    rw [List.take_take, min_self]

/-- Every call of the loop logs something, and never "Device not ethernet!". -/
theorem is_mac_address_known_loop_log (mac_addr : List Nat) (entries : List (List Nat)) :
    (is_mac_address_known_loop mac_addr entries).2 ≠ [] ∧
      log_msg.not_ethernet ∉ (is_mac_address_known_loop mac_addr entries).2 := by
  induction entries with
  | nil => simp [is_mac_address_known_loop]
  | cons known rest ih =>
    by_cases h : memcmp mac_addr known ETH_ALEN = 0
    · simp [is_mac_address_known_loop, h]
    · simp [is_mac_address_known_loop, h, ih.2]

/-- C10: a candidate is accepted by the setup loop exactly when it has a
network interface, the interface's hardware address is a valid Ethernet
address, and its six octets equal, octet for octet, one entry of
`known_mac_addresses`. `00:00:00:00:00:01` is accepted, `00:00:00:00:00:02`
is rejected, an address that shares only a prefix with an entry
(`00:a0:c9:00:00:01`) is rejected, and a candidate with no network interface
is rejected with "Device not ethernet!" as the only record logged, while any
call of `is_mac_address_known` logs at least one record and never that one. -/
theorem accept_iff_known_mac (pdev : pci_dev) :
    ((miniptm_module_init_accept pdev).1 = true ↔
      ∃ netdev, pdev.drvdata = some netdev ∧
        is_valid_ether_addr netdev.dev_addr = true ∧
        ∃ known ∈ known_mac_addresses, netdev.dev_addr.take ETH_ALEN = known) ∧
    (miniptm_module_init_accept (candidate_with_mac [0x00, 0x00, 0x00, 0x00, 0x00, 0x01])).1
      = true ∧
    (miniptm_module_init_accept (candidate_with_mac [0x00, 0x00, 0x00, 0x00, 0x00, 0x02])).1
      = false ∧
    (miniptm_module_init_accept (candidate_with_mac [0x00, 0xa0, 0xc9, 0x00, 0x00, 0x01])).1
      = false ∧
    miniptm_module_init_accept candidate_without_netdev = (false, [.not_ethernet]) ∧
    (pdev.drvdata = none → miniptm_module_init_accept pdev = (false, [.not_ethernet])) ∧
    (∀ mac_addr, (is_mac_address_known mac_addr).2 ≠ [] ∧
      log_msg.not_ethernet ∉ (is_mac_address_known mac_addr).2) := by
  refine ⟨?_, by decide, by decide, by decide, rfl, ?_, ?_⟩
  · cases hd : pdev.drvdata with
    | none => simp [miniptm_module_init_accept, hd]
    | some netdev =>
      have hmem : (is_mac_address_known netdev.dev_addr).1 = true
          ↔ netdev.dev_addr.take ETH_ALEN ∈ known_mac_addresses :=
        is_mac_address_known_iff netdev.dev_addr
      by_cases hvalid : is_valid_ether_addr netdev.dev_addr = true
      · by_cases hknown : (is_mac_address_known netdev.dev_addr).1 = true
        · simp [miniptm_module_init_accept, hd, hvalid, hknown, hmem.mp hknown]
        · have hnot : netdev.dev_addr.take ETH_ALEN ∉ known_mac_addresses :=
            fun h => hknown (hmem.mpr h)
          simp [miniptm_module_init_accept, hd, hvalid, hknown, hnot]
      · simp [miniptm_module_init_accept, hd, hvalid]
  · intro hd
    simp [miniptm_module_init_accept, hd]
  · intro mac_addr
    exact is_mac_address_known_loop_log mac_addr known_mac_addresses

/-! ## Device lifecycle -/

/-- One loop iteration faults exactly when the candidate dereferences NULL. -/
theorem init_body_fault (s : module_state) (c : candidate) :
    (miniptm_module_init_body s c).fault = (s.fault || c.faults) := by
  unfold miniptm_module_init_body candidate.faults
  cases hacc : (miniptm_module_init_accept c.pdev).1 <;>
    cases hk : c.kzalloc <;>
    cases hm : c.ioremap <;>
    by_cases hg : c.gpiochip_add_data = 0 <;>
    by_cases hi : c.i2c_bit_add_numbered_bus < 0 <;>
    simp [hacc, hk, hm, hg, hi]

/-- One loop iteration puts the candidate's entry, when it commits, at the
head of the registry and leaves the entries already there in place. -/
theorem init_body_registry (s : module_state) (c : candidate) :
    (miniptm_module_init_body s c).device_list_head
      = c.entry.toList ++ s.device_list_head := by
  unfold miniptm_module_init_body candidate.entry candidate.commits
  cases hacc : (miniptm_module_init_accept c.pdev).1 <;>
    cases hk : c.kzalloc <;>
    cases hm : c.ioremap <;>
    by_cases hg : c.gpiochip_add_data = 0 <;>
    by_cases hi : c.i2c_bit_add_numbered_bus < 0 <;>
    simp [hacc, hk, hm, hg, hi]

/-- The loop faults exactly when it starts faulted or some candidate faults. -/
theorem init_loop_fault (s : module_state) (cands : List candidate) :
    (miniptm_module_init_loop s cands).fault
      = (s.fault || cands.any candidate.faults) := by
  induction cands generalizing s with
  | nil => simp [miniptm_module_init_loop]
  | cons c rest ih =>
    have hb := init_body_fault s c
    by_cases hf : (miniptm_module_init_body s c).fault = true
    · have : s.fault = true ∨ c.faults = true := by
        rw [hf] at hb
        simpa using hb.symm
      simp only [miniptm_module_init_loop, hf, if_true, List.any_cons]
      rcases this with h | h <;> simp [h]
    · have hstep : miniptm_module_init_loop s (c :: rest)
          = miniptm_module_init_loop (miniptm_module_init_body s c) rest := by
        simp only [miniptm_module_init_loop]
        rw [if_neg hf]
      rw [hstep, ih, hb, List.any_cons, Bool.or_assoc]

/-- When no candidate faults, the loop leaves on the registry the entries of
the candidates that commit, the most recent one first, in front of the
entries that were there before. -/
theorem init_loop_registry (s : module_state) (cands : List candidate)
    (hs : s.fault = false) (h : ∀ c ∈ cands, c.faults = false) :
    (miniptm_module_init_loop s cands).device_list_head
      = (cands.filterMap candidate.entry).reverse ++ s.device_list_head := by
  induction cands generalizing s with
  | nil => simp [miniptm_module_init_loop]
  | cons c rest ih =>
    have hc : c.faults = false := h c (List.mem_cons_self c rest)
    have hb : (miniptm_module_init_body s c).fault = false := by
      rw [init_body_fault, hs, hc]
      rfl
    have hrest : ∀ x ∈ rest, x.faults = false :=
      fun x hx => h x (List.mem_cons_of_mem c hx)
    have hstep : miniptm_module_init_loop s (c :: rest)
        = miniptm_module_init_loop (miniptm_module_init_body s c) rest := by
      simp only [miniptm_module_init_loop]
      rw [if_neg (by rw [hb]; exact Bool.false_ne_true)]
    rw [hstep, ih _ hb hrest, init_body_registry]
    cases he : c.entry <;> simp [List.filterMap_cons, he]

/-- The sweep makes the five teardown calls for every entry it is given, in
list order. -/
theorem exit_loop_calls (r : Nat → Int) (s : module_state) (l : List device_list_entry) :
    (miniptm_module_exit_loop r s l).calls = s.calls ++ l.flatMap (teardown_calls r) := by
  induction l generalizing s with
  | nil => simp [miniptm_module_exit_loop]
  | cons d rest ih =>
    simp only [miniptm_module_exit_loop, ih, List.flatMap_cons, teardown_calls,
      List.append_assoc]

/-- The sweep over the whole registry leaves it empty. -/
theorem exit_loop_registry (r : Nat → Int) (s : module_state) (l : List device_list_entry)
    (h : s.device_list_head = l) :
    (miniptm_module_exit_loop r s l).device_list_head = [] := by
  induction l generalizing s with
  | nil => simpa [miniptm_module_exit_loop] using h
  | cons d rest ih =>
    simp only [miniptm_module_exit_loop]
    exact ih _ rfl

theorem calls_for_append (a : Nat) (xs ys : List kernel_call) :
    calls_for a (xs ++ ys) = calls_for a xs ++ calls_for a ys := by
  unfold calls_for
  exact List.filter_append xs ys

/-- The five teardown calls of an entry are all for that entry's object. -/
theorem calls_for_teardown_calls (r : Nat → Int) (a : Nat) (d : device_list_entry) :
    calls_for a (teardown_calls r d) = if d.addr = a then teardown_calls r d else [] := by
  by_cases h : d.addr = a <;>
    simp [calls_for, teardown_calls, kernel_call.dev_list, h]

/-- Among the teardown calls of a registry, none is for an object that is not
on it. -/
theorem calls_for_flatMap_of_not_mem (r : Nat → Int) (a : Nat) (l : List device_list_entry)
    (h : a ∉ l.map device_list_entry.addr) :
    calls_for a (l.flatMap (teardown_calls r)) = [] := by
  induction l with
  | nil => rfl
  | cons d rest ih =>
    have hd : ¬ d.addr = a := fun e => h (by simp [e])
    have hrest : a ∉ rest.map device_list_entry.addr := fun e => h (by simp [e])
    rw [List.flatMap_cons, calls_for_append, calls_for_teardown_calls, if_neg hd, ih hrest]
    rfl

/-- Among the teardown calls of a registry of distinct objects, those for one
entry are exactly its five calls, in order. -/
theorem calls_for_flatMap_of_mem (r : Nat → Int) (l : List device_list_entry)
    (hnd : (l.map device_list_entry.addr).Nodup) (d : device_list_entry) (hd : d ∈ l) :
    calls_for d.addr (l.flatMap (teardown_calls r)) = teardown_calls r d := by
  induction l with
  | nil => cases hd
  | cons e rest ih =>
    rw [List.map_cons, List.nodup_cons] at hnd
    rw [List.flatMap_cons, calls_for_append, calls_for_teardown_calls]
    rcases List.mem_cons.mp hd with rfl | hmem
    · rw [if_pos rfl, calls_for_flatMap_of_not_mem r d.addr rest hnd.1, List.append_nil]
    · have hne : ¬ e.addr = d.addr := by
        intro e1
        apply hnd.1
        rw [e1]
        exact List.mem_map_of_mem _ hmem
      rw [if_neg hne, ih hnd.2 hmem, List.nil_append]

/-- The calls of `miniptm_module_exit` are those of its sweep. -/
theorem exit_calls (r : Nat → Int) (s : module_state) :
    (miniptm_module_exit r s).calls
      = s.calls ++ s.device_list_head.flatMap (teardown_calls r) := by
  unfold miniptm_module_exit
  exact exit_loop_calls r s s.device_list_head

theorem registration_order_append (xs ys : List kernel_call) :
    registration_order (xs ++ ys) = registration_order xs ++ registration_order ys := by
  unfold registration_order
  exact List.filterMap_append xs ys _

theorem teardown_order_append (xs ys : List kernel_call) :
    teardown_order (xs ++ ys) = teardown_order xs ++ teardown_order ys := by
  unfold teardown_order
  exact List.filterMap_append xs ys _

/-- One loop iteration registers the candidate's object exactly when the
candidate commits, and tears nothing down. -/
theorem init_body_orders (s : module_state) (c : candidate) :
    registration_order (miniptm_module_init_body s c).calls
        = registration_order s.calls ++ c.entry.toList.map device_list_entry.addr ∧
      teardown_order (miniptm_module_init_body s c).calls = teardown_order s.calls := by
  unfold miniptm_module_init_body candidate.entry candidate.commits
  cases hacc : (miniptm_module_init_accept c.pdev).1 <;>
    cases hk : c.kzalloc <;>
    cases hm : c.ioremap <;>
    by_cases hg : c.gpiochip_add_data = 0 <;>
    by_cases hi : c.i2c_bit_add_numbered_bus < 0 <;>
    simp [hacc, hk, hm, hg, hi, registration_order_append, teardown_order_append,
      registration_order, teardown_order]

/-- When no candidate faults, the loop registers the objects of the
candidates that commit, in enumeration order, and tears nothing down. -/
theorem init_loop_orders (s : module_state) (cands : List candidate)
    (hs : s.fault = false) (h : ∀ c ∈ cands, c.faults = false) :
    registration_order (miniptm_module_init_loop s cands).calls
        = registration_order s.calls
          ++ (cands.filterMap candidate.entry).map device_list_entry.addr ∧
      teardown_order (miniptm_module_init_loop s cands).calls = teardown_order s.calls := by
  induction cands generalizing s with
  | nil => simp [miniptm_module_init_loop]
  | cons c rest ih =>
    have hc : c.faults = false := h c (List.mem_cons_self c rest)
    have hb : (miniptm_module_init_body s c).fault = false := by
      rw [init_body_fault, hs, hc]
      rfl
    have hrest : ∀ x ∈ rest, x.faults = false :=
      fun x hx => h x (List.mem_cons_of_mem c hx)
    have hstep : miniptm_module_init_loop s (c :: rest)
        = miniptm_module_init_loop (miniptm_module_init_body s c) rest := by
      simp only [miniptm_module_init_loop]
      rw [if_neg (by rw [hb]; exact Bool.false_ne_true)]
    obtain ⟨h1, h2⟩ := ih _ hb hrest
    obtain ⟨b1, b2⟩ := init_body_orders s c
    rw [hstep, h1, h2, b1, b2]
    cases he : c.entry <;> simp [List.filterMap_cons, he]

/-- The sweep tears the registry's objects down in list order. -/
theorem teardown_order_flatMap (r : Nat → Int) (l : List device_list_entry) :
    teardown_order (l.flatMap (teardown_calls r)) = l.map device_list_entry.addr := by
  induction l with
  | nil => rfl
  | cons d rest ih =>
    rw [List.flatMap_cons, teardown_order_append, ih]
    simp [teardown_order, teardown_calls]

/-- C11 at the failing input: an accepted candidate for which `ioremap`
returns NULL while both registrations succeed. The mapping is never tested,
so control reaches `list_add`: the registry holds the instance at address 1
with a NULL `mapped_address`, and the LED errata write that follows
dereferences it. -/
theorem init_registers_instance_with_null_mapping :
    (miniptm_module_init_accept cand_null_mapping.pdev).1 = true ∧
    cand_null_mapping.ioremap.isSome = false ∧
    (miniptm_module_init [cand_null_mapping]).2.device_list_head.map
        (fun d => (d.addr, d.mapped_address.isSome)) = [(1, false)] ∧
    (miniptm_module_init [cand_null_mapping]).2.calls =
      [kernel_call.kzalloc (some 1), kernel_call.ioremap 1, kernel_call.gpiochip_add_data 1,
       kernel_call.i2c_bit_add_numbered_bus 1, kernel_call.list_add 1,
       kernel_call.led_write 1] ∧
    (miniptm_module_init [cand_null_mapping]).2.fault = true ∧
    (miniptm_module_init [cand_null_mapping]).1 = none :=
  ⟨by decide, by decide, by decide, by decide, by decide, by decide⟩

/-- C12: a registration failure is local to its candidate. For an accepted
candidate with a non-NULL object, when `gpiochip_add_data` fails the window is
unmapped and the object freed with no I2C registration attempted; when
`i2c_bit_add_numbered_bus` fails the GPIO chip is removed, the window unmapped
and the object freed. In both cases the registry is unchanged, every resource
acquired is released by exactly one call, the loop goes on with the remaining
candidates, and `miniptm_module_init` returns what it returns without this
candidate: 0 when no remaining candidate faults. -/
theorem registration_failure_is_local (s : module_state) (c : candidate)
    (rest : List candidate) (dev_list : Nat)
    (hs : s.fault = false)
    (hacc : (miniptm_module_init_accept c.pdev).1 = true)
    (hk : c.kzalloc = some dev_list)
    (hfail : c.gpiochip_add_data ≠ 0 ∨ c.i2c_bit_add_numbered_bus < 0) :
    (miniptm_module_init_body s c).device_list_head = s.device_list_head ∧
    (miniptm_module_init_body s c).fault = false ∧
    (c.gpiochip_add_data ≠ 0 →
      (miniptm_module_init_body s c).calls = s.calls ++
        [kernel_call.kzalloc (some dev_list), kernel_call.ioremap dev_list,
         kernel_call.gpiochip_add_data dev_list,
         kernel_call.iounmap dev_list, kernel_call.kfree dev_list]) ∧
    (c.gpiochip_add_data = 0 →
      (miniptm_module_init_body s c).calls = s.calls ++
        [kernel_call.kzalloc (some dev_list), kernel_call.ioremap dev_list,
         kernel_call.gpiochip_add_data dev_list,
         kernel_call.i2c_bit_add_numbered_bus dev_list,
         kernel_call.gpiochip_remove dev_list,
         kernel_call.iounmap dev_list, kernel_call.kfree dev_list]) ∧
    miniptm_module_init_loop s (c :: rest)
      = miniptm_module_init_loop (miniptm_module_init_body s c) rest ∧
    (miniptm_module_init (c :: rest)).1 = (miniptm_module_init rest).1 ∧
    ((∀ x ∈ rest, x.faults = false) → (miniptm_module_init (c :: rest)).1 = some 0) := by
  have hcf : c.faults = false := by
    unfold candidate.faults
    rcases hfail with h | h
    · simp [hk, h]
    · simp [hk, h]
  have hbf : ∀ t : module_state, t.fault = false →
      (miniptm_module_init_body t c).fault = false := by
    intro t ht
    rw [init_body_fault, ht, hcf]
    rfl
  have hstep : ∀ t : module_state, t.fault = false →
      miniptm_module_init_loop t (c :: rest)
        = miniptm_module_init_loop (miniptm_module_init_body t c) rest := by
    intro t ht
    simp only [miniptm_module_init_loop]
    rw [if_neg (by rw [hbf t ht]; exact Bool.false_ne_true)]
  have hret : ∀ l : List candidate,
      (miniptm_module_init l).1 = if l.any candidate.faults then none else some 0 := by
    intro l
    simp only [miniptm_module_init, init_loop_fault, module_state.initial, Bool.false_or]
  have hce : c.entry = none := by
    unfold candidate.entry candidate.commits
    rcases hfail with h | h
    · simp [h]
    · simp [h]
  refine ⟨?_, hbf s hs, ?_, ?_, hstep s hs, ?_, ?_⟩
  · rw [init_body_registry, hce]
    rfl
  · intro hg
    simp [miniptm_module_init_body, hacc, hk, hg]
  · intro hg
    have hi : c.i2c_bit_add_numbered_bus < 0 := by
      rcases hfail with h | h
      · exact absurd hg h
      · exact h
    simp [miniptm_module_init_body, hacc, hk, hg, hi]
  · rw [hret, hret, List.any_cons, hcf, Bool.false_or]
  · intro hall
    have hany : rest.any candidate.faults = false := by
      rw [List.any_eq_false]
      intro x hx
      rw [hall x hx]
      exact Bool.false_ne_true
    rw [hret, List.any_cons, hcf, hany]
    rfl

/-- C12 at a candidate whose I2C bus registration fails with `-EBUSY`,
followed by a candidate that registers. -/
theorem registration_failure_is_local_witness :
    module_state.initial.fault = false ∧
    (miniptm_module_init_accept cand_i2c_fails.pdev).1 = true ∧
    cand_i2c_fails.kzalloc = some 5 ∧
    (cand_i2c_fails.gpiochip_add_data ≠ 0 ∨ cand_i2c_fails.i2c_bit_add_numbered_bus < 0) ∧
    ((miniptm_module_init_body module_state.initial cand_i2c_fails).device_list_head
        = module_state.initial.device_list_head ∧
      (miniptm_module_init_body module_state.initial cand_i2c_fails).fault = false ∧
      (cand_i2c_fails.gpiochip_add_data ≠ 0 →
        (miniptm_module_init_body module_state.initial cand_i2c_fails).calls
          = module_state.initial.calls ++
            [kernel_call.kzalloc (some 5), kernel_call.ioremap 5,
             kernel_call.gpiochip_add_data 5,
             kernel_call.iounmap 5, kernel_call.kfree 5]) ∧
      (cand_i2c_fails.gpiochip_add_data = 0 →
        (miniptm_module_init_body module_state.initial cand_i2c_fails).calls
          = module_state.initial.calls ++
            [kernel_call.kzalloc (some 5), kernel_call.ioremap 5,
             kernel_call.gpiochip_add_data 5,
             kernel_call.i2c_bit_add_numbered_bus 5,
             kernel_call.gpiochip_remove 5,
             kernel_call.iounmap 5, kernel_call.kfree 5]) ∧
      miniptm_module_init_loop module_state.initial (cand_i2c_fails :: [cand_ok_2])
        = miniptm_module_init_loop
            (miniptm_module_init_body module_state.initial cand_i2c_fails) [cand_ok_2] ∧
      (miniptm_module_init (cand_i2c_fails :: [cand_ok_2])).1
        = (miniptm_module_init [cand_ok_2]).1 ∧
      ((∀ x ∈ [cand_ok_2], x.faults = false) →
        (miniptm_module_init (cand_i2c_fails :: [cand_ok_2])).1 = some 0)) :=
  ⟨rfl, by decide, rfl, Or.inr (by decide),
    registration_failure_is_local module_state.initial cand_i2c_fails [cand_ok_2] 5
      rfl (by decide) rfl (Or.inr (by decide))⟩

/-- C13: for every registry and whatever the bus unregistrations report,
`miniptm_module_exit` leaves the registry empty, and the calls it makes are,
for each entry in registry order, `i2c_del_adapter`, `gpiochip_remove`,
`iounmap`, `list_del`, `kfree`, in this order and nothing else; when the
objects are distinct, the calls made for one instance are exactly these five,
once each. With three instances of which the second one's bus unregistration
fails, all three are removed and unmapped. -/
theorem exit_tears_down_every_instance (i2c_del_adapter : Nat → Int) (s : module_state) :
    (miniptm_module_exit i2c_del_adapter s).device_list_head = [] ∧
    (miniptm_module_exit i2c_del_adapter s).calls
      = s.calls ++ s.device_list_head.flatMap (teardown_calls i2c_del_adapter) ∧
    ((s.device_list_head.map device_list_entry.addr).Nodup →
      ∀ d ∈ s.device_list_head,
        calls_for d.addr (s.device_list_head.flatMap (teardown_calls i2c_del_adapter))
          = [kernel_call.i2c_del_adapter d.addr (i2c_del_adapter d.addr),
             kernel_call.gpiochip_remove d.addr, kernel_call.iounmap d.addr,
             kernel_call.list_del d.addr, kernel_call.kfree d.addr]) ∧
    (miniptm_module_exit second_unregistration_fails three_active).device_list_head.length = 0 ∧
    (miniptm_module_exit second_unregistration_fails three_active).calls =
      [kernel_call.i2c_del_adapter 3 0, kernel_call.gpiochip_remove 3, kernel_call.iounmap 3,
       kernel_call.list_del 3, kernel_call.kfree 3,
       kernel_call.i2c_del_adapter 2 (-16), kernel_call.gpiochip_remove 2,
       kernel_call.iounmap 2, kernel_call.list_del 2, kernel_call.kfree 2,
       kernel_call.i2c_del_adapter 1 0, kernel_call.gpiochip_remove 1, kernel_call.iounmap 1,
       kernel_call.list_del 1, kernel_call.kfree 1] := by
  refine ⟨?_, exit_calls i2c_del_adapter s, ?_, by decide, by decide⟩
  · unfold miniptm_module_exit
    exact exit_loop_registry i2c_del_adapter s s.device_list_head rfl
  · intro hnd d hd
    exact calls_for_flatMap_of_mem i2c_del_adapter s.device_list_head hnd d hd

/-- C14 as stated fails: with two candidates that both register, objects 1
and 2 in this order, the registry holds object 2 first, and
`miniptm_module_exit` tears object 2 down first. -/
theorem registry_insertion_order_counterexample :
    (miniptm_module_init [cand_ok_1, cand_ok_2]).1 = some 0 ∧
    registration_order (miniptm_module_init [cand_ok_1, cand_ok_2]).2.calls = [1, 2] ∧
    (miniptm_module_init [cand_ok_1, cand_ok_2]).2.device_list_head.map device_list_entry.addr
      = [2, 1] ∧
    teardown_order
        (miniptm_module_exit (fun _ => 0) (miniptm_module_init [cand_ok_1, cand_ok_2]).2).calls
      = [2, 1] :=
  ⟨by decide, by decide, by decide, by decide⟩

/-- C14 amended: the registry is kept most recent first. A successful setup
puts the new instance at the head, in front of all instances already
registered; so after `miniptm_module_init` the registry lists the instances
in the reverse of the order in which they were registered, and
`miniptm_module_exit`, which sweeps in registry order, tears them down in
that reverse order. -/
theorem registry_is_most_recent_first (cands : List candidate) (i2c_del_adapter : Nat → Int)
    (h : ∀ c ∈ cands, c.faults = false) :
    (∀ (s : module_state) (c : candidate) (e : device_list_entry), c.entry = some e →
      (miniptm_module_init_body s c).device_list_head = e :: s.device_list_head) ∧
    (miniptm_module_init cands).2.device_list_head.map device_list_entry.addr
      = (registration_order (miniptm_module_init cands).2.calls).reverse ∧
    teardown_order (miniptm_module_exit i2c_del_adapter (miniptm_module_init cands).2).calls
      = (registration_order (miniptm_module_init cands).2.calls).reverse := by
  have hreg := init_loop_registry
    { module_state.initial with log := [log_msg.module_start] } cands rfl h
  have hord := init_loop_orders
    { module_state.initial with log := [log_msg.module_start] } cands rfl h
  have hinit : (miniptm_module_init cands).2
      = miniptm_module_init_loop
          { module_state.initial with log := [log_msg.module_start] } cands := rfl
  have hreg2 : (miniptm_module_init cands).2.device_list_head
      = (cands.filterMap candidate.entry).reverse := by
    rw [hinit, hreg]
    exact List.append_nil _
  have hord1 : registration_order (miniptm_module_init cands).2.calls
      = (cands.filterMap candidate.entry).map device_list_entry.addr := by
    rw [hinit, hord.1]
    exact List.nil_append _
  have hord2 : teardown_order (miniptm_module_init cands).2.calls = [] := by
    rw [hinit, hord.2]
    rfl
  refine ⟨?_, ?_, ?_⟩
  · intro s c e he
    rw [init_body_registry, he]
    rfl
  · rw [hreg2, hord1, List.map_reverse]
  · rw [exit_calls, teardown_order_append, hord2, teardown_order_flatMap, hreg2, hord1,
      List.map_reverse]
    rfl

/-- C14 amended, on three candidates of which the first and the last
register. -/
theorem registry_is_most_recent_first_witness :
    (∀ c ∈ [cand_ok_1, cand_unknown_mac, cand_ok_2], c.faults = false) ∧
    ((∀ (s : module_state) (c : candidate) (e : device_list_entry), c.entry = some e →
      (miniptm_module_init_body s c).device_list_head = e :: s.device_list_head) ∧
    (miniptm_module_init [cand_ok_1, cand_unknown_mac, cand_ok_2]).2.device_list_head.map
        device_list_entry.addr
      = (registration_order
          (miniptm_module_init [cand_ok_1, cand_unknown_mac, cand_ok_2]).2.calls).reverse ∧
    teardown_order (miniptm_module_exit second_unregistration_fails
        (miniptm_module_init [cand_ok_1, cand_unknown_mac, cand_ok_2]).2).calls
      = (registration_order
          (miniptm_module_init [cand_ok_1, cand_unknown_mac, cand_ok_2]).2.calls).reverse) :=
  ⟨by decide,
    registry_is_most_recent_first [cand_ok_1, cand_unknown_mac, cand_ok_2]
      second_unregistration_fails (by decide)⟩

/-! ## LED errata write -/

/-- Writing the LED configuration twice is the same as writing it once. -/
theorem led_errata_write_twice (m : iomem) :
    miniptm_led_errata_write (miniptm_led_errata_write m) = miniptm_led_errata_write m := by
  funext o
  by_cases h : o = LED_CONFIG <;> simp [miniptm_led_errata_write, iowrite32, h]

/-- C15: the LED errata write is a full overwrite. Whatever the window held,
the LED-configuration register then reads `0x010101`: each of the three 8-bit
fields at bit offsets 0, 8 and 16 is 1 (`LED_ALWAYS_OFF`) and bits 24..31 are
0; the instance a successful setup registers holds that value. -/
theorem led_errata_write_is_full_overwrite (mapped_address : iomem) :
    miniptm_led_errata_write mapped_address LED_CONFIG = 0x010101 ∧
    ioread32 (miniptm_led_errata_write mapped_address) LED_CONFIG = 0x010101 ∧
    (miniptm_led_errata_write mapped_address LED_CONFIG >>> 0) &&& 0xFF = LED_ALWAYS_OFF ∧
    (miniptm_led_errata_write mapped_address LED_CONFIG >>> 8) &&& 0xFF = LED_ALWAYS_OFF ∧
    (miniptm_led_errata_write mapped_address LED_CONFIG >>> 16) &&& 0xFF = LED_ALWAYS_OFF ∧
    miniptm_led_errata_write mapped_address LED_CONFIG >>> 24 = 0 ∧
    (miniptm_module_init [cand_ok_1]).2.device_list_head.map
        (fun d => d.mapped_address.map fun m => m LED_CONFIG) = [some 0x010101] := by
  have h : miniptm_led_errata_write mapped_address LED_CONFIG = 0x010101 := rfl
  have h2 : ioread32 (miniptm_led_errata_write mapped_address) LED_CONFIG = 0x010101 := rfl
  rw [h, h2]
  decide

/-- C16 as stated fails: after one LED errata write on an all-zero window,
none of the three fields of the LED-configuration register is 0. -/
theorem led_errata_fields_zero_counterexample :
    (miniptm_led_errata_write (fun _ => 0) LED_CONFIG >>> 0) &&& 0xFF ≠ 0 ∧
    (miniptm_led_errata_write (fun _ => 0) LED_CONFIG >>> 8) &&& 0xFF ≠ 0 ∧
    (miniptm_led_errata_write (fun _ => 0) LED_CONFIG >>> 16) &&& 0xFF ≠ 0 := by
  decide

/-- C16 amended: the LED errata write is idempotent. For every prior window
content and every `n ≥ 1`, repeating the write `n` times leaves the same
window as a single write, and the LED-configuration register then holds 1
(`LED_ALWAYS_OFF`) in each of the three fields. -/
theorem led_errata_write_idempotent (mapped_address : iomem) (n : Nat) (hn : 1 ≤ n) :
    miniptm_led_errata_write^[n] mapped_address = miniptm_led_errata_write mapped_address ∧
    ((miniptm_led_errata_write^[n] mapped_address) LED_CONFIG >>> 0) &&& 0xFF = 1 ∧
    ((miniptm_led_errata_write^[n] mapped_address) LED_CONFIG >>> 8) &&& 0xFF = 1 ∧
    ((miniptm_led_errata_write^[n] mapped_address) LED_CONFIG >>> 16) &&& 0xFF = 1 := by
  have hiter : miniptm_led_errata_write^[n] mapped_address
      = miniptm_led_errata_write mapped_address := by
    induction n with
    | zero => omega
    | succ k ih =>
      rw [Function.iterate_succ_apply']
      by_cases hk : k = 0
      · subst hk
        rfl
      · rw [ih (by omega), led_errata_write_twice]
  have h : miniptm_led_errata_write mapped_address LED_CONFIG = 0x010101 := rfl
  rw [hiter, h]
  exact ⟨rfl, by decide, by decide, by decide⟩

/-- C16 amended, at three writes on an all-ones window. -/
theorem led_errata_write_idempotent_witness :
    1 ≤ 3 ∧
    (miniptm_led_errata_write^[3] (fun _ => 0xFFFFFFFF)
      = miniptm_led_errata_write (fun _ => 0xFFFFFFFF) ∧
    ((miniptm_led_errata_write^[3] (fun _ => 0xFFFFFFFF)) LED_CONFIG >>> 0) &&& 0xFF = 1 ∧
    ((miniptm_led_errata_write^[3] (fun _ => 0xFFFFFFFF)) LED_CONFIG >>> 8) &&& 0xFF = 1 ∧
    ((miniptm_led_errata_write^[3] (fun _ => 0xFFFFFFFF)) LED_CONFIG >>> 16) &&& 0xFF = 1) :=
  ⟨by decide, led_errata_write_idempotent (fun _ => 0xFFFFFFFF) 3 (by decide)⟩

/-! ## Pins outside {0,1}, and direction_output as one write -/

/-- Writing back what was just read from a 32-bit register changes nothing. -/
theorem with_ctrl_ext_self (dev : device_list) (h32 : ctrl_ext dev < 2 ^ 32) :
    with_ctrl_ext dev (ioread32 dev.mapped_address CTRL_EXT) = dev := by
  cases dev with
  | mk pdev m =>
    have hm : m CTRL_EXT < 2 ^ 32 := h32
    have : iowrite32 (ioread32 m CTRL_EXT) m CTRL_EXT = m := by
      funext o
      by_cases h : o = CTRL_EXT
      · subst h
        simp only [iowrite32, ioread32, if_true, Nat.mod_mod]
        exact Nat.mod_eq_of_lt hm
      · simp [iowrite32, h]
    simp only [with_ctrl_ext, this]

/-- A second write to the control-extension register replaces the first. -/
theorem with_ctrl_ext_twice (dev : device_list) (x y : Nat) :
    with_ctrl_ext (with_ctrl_ext dev x) y = with_ctrl_ext dev y := by
  have : iowrite32 y (iowrite32 x dev.mapped_address CTRL_EXT) CTRL_EXT
      = iowrite32 y dev.mapped_address CTRL_EXT := by
    funext o
    by_cases h : o = CTRL_EXT <;> simp [iowrite32, h]
  simp only [with_ctrl_ext, this]

/-- C17: for every pin index outside {0,1} and every 32-bit register content,
`my_gpio_direction_input`, `my_gpio_direction_output` and `my_gpio_set_value`
(with any value) leave the register, and the whole device, as it was, and the
two direction calls return 0. -/
theorem out_of_range_pin_is_silent_noop (dev : device_list) (offset : Nat) (value : Int)
    (h32 : ctrl_ext dev < 2 ^ 32) (h0 : offset ≠ 0) (h1 : offset ≠ 1) :
    my_gpio_direction_input dev offset = (0, dev) ∧
    my_gpio_direction_output dev offset value = (0, dev) ∧
    my_gpio_set_value dev offset value = dev ∧
    ctrl_ext (my_gpio_direction_input dev offset).2 = ctrl_ext dev ∧
    ctrl_ext (my_gpio_direction_output dev offset value).2 = ctrl_ext dev ∧
    ctrl_ext (my_gpio_set_value dev offset value) = ctrl_ext dev := by
  have hself := with_ctrl_ext_self dev h32
  unfold with_ctrl_ext at hself
  have hin : my_gpio_direction_input dev offset = (0, dev) := by
    simp only [my_gpio_direction_input, if_neg h0, if_neg h1, hself]
  have hout : my_gpio_direction_output dev offset value = (0, dev) := by
    simp only [my_gpio_direction_output, if_neg h0, if_neg h1, ite_self, hself]
  have hset : my_gpio_set_value dev offset value = dev := by
    simp only [my_gpio_set_value, if_neg h0, if_neg h1, ite_self, hself]
  rw [hin, hout, hset]
  exact ⟨rfl, rfl, rfl, rfl, rfl, rfl⟩

/-- C17 at pin 2 with value 1 on the all-ones register. -/
theorem out_of_range_pin_is_silent_noop_witness :
    ctrl_ext dev_all_ones < 2 ^ 32 ∧ (2 : Nat) ≠ 0 ∧ (2 : Nat) ≠ 1 ∧
    (my_gpio_direction_input dev_all_ones 2 = (0, dev_all_ones) ∧
    my_gpio_direction_output dev_all_ones 2 1 = (0, dev_all_ones) ∧
    my_gpio_set_value dev_all_ones 2 1 = dev_all_ones ∧
    ctrl_ext (my_gpio_direction_input dev_all_ones 2).2 = ctrl_ext dev_all_ones ∧
    ctrl_ext (my_gpio_direction_output dev_all_ones 2 1).2 = ctrl_ext dev_all_ones ∧
    ctrl_ext (my_gpio_set_value dev_all_ones 2 1) = ctrl_ext dev_all_ones) :=
  ⟨by decide, by decide, by decide,
    out_of_range_pin_is_silent_noop dev_all_ones 2 1 (by decide) (by decide) (by decide)⟩

/-- C20: for every pin index outside {0,1} and every 32-bit register content,
`my_gpio_get_value` applies no mask: it returns 1 exactly when the whole
register is non-zero and 0 exactly when the register is 0, so a bit that
belongs to neither pin (bit 0) makes it return 1; the result is never
negative and the device is left as it was. -/
theorem get_value_out_of_range_reads_whole_register (dev : device_list) (offset : Nat)
    (h32 : ctrl_ext dev < 2 ^ 32) (h0 : offset ≠ 0) (h1 : offset ≠ 1) :
    ((my_gpio_get_value dev offset).1 = 1 ↔ ctrl_ext dev ≠ 0) ∧
    ((my_gpio_get_value dev offset).1 = 0 ↔ ctrl_ext dev = 0) ∧
    0 ≤ (my_gpio_get_value dev offset).1 ∧
    (my_gpio_get_value dev offset).2 = dev ∧
    (my_gpio_get_value dev_bit_0 offset).1 = 1 := by
  have hget : ∀ d : device_list, my_gpio_get_value d offset
      = if ctrl_ext d % 2 ^ 32 ≠ 0 then (1, d) else (0, d) := by
    intro d
    simp only [my_gpio_get_value, if_neg h0, if_neg h1, ioread32, ctrl_ext]
  have hb : ctrl_ext dev_bit_0 % 2 ^ 32 ≠ 0 := by decide
  rw [hget dev, hget dev_bit_0, if_pos hb, Nat.mod_eq_of_lt h32]
  by_cases hr : ctrl_ext dev = 0
  · simp [hr]
  · simp [hr]

/-- C20 at pin 5 on the all-ones register. -/
theorem get_value_out_of_range_reads_whole_register_witness :
    ctrl_ext dev_all_ones < 2 ^ 32 ∧ (5 : Nat) ≠ 0 ∧ (5 : Nat) ≠ 1 ∧
    (((my_gpio_get_value dev_all_ones 5).1 = 1 ↔ ctrl_ext dev_all_ones ≠ 0) ∧
    ((my_gpio_get_value dev_all_ones 5).1 = 0 ↔ ctrl_ext dev_all_ones = 0) ∧
    0 ≤ (my_gpio_get_value dev_all_ones 5).1 ∧
    (my_gpio_get_value dev_all_ones 5).2 = dev_all_ones ∧
    (my_gpio_get_value dev_bit_0 5).1 = 1) :=
  ⟨by decide, by decide, by decide,
    get_value_out_of_range_reads_whole_register dev_all_ones 5
      (by decide) (by decide) (by decide)⟩

/-- `my_gpio_set_value` on pin 0 is one write of the register just read with
bit 6 set or cleared. -/
theorem set_value_0_eq (dev : device_list) (value : Int) :
    my_gpio_set_value dev 0 value
      = with_ctrl_ext dev
          (if value ≠ 0 then ioread32 dev.mapped_address CTRL_EXT ||| SDP2_DATA
           else ioread32 dev.mapped_address CTRL_EXT &&& not32 SDP2_DATA) := by
  by_cases hv : value = 0 <;> simp [my_gpio_set_value, with_ctrl_ext, hv]

/-- `my_gpio_set_value` on pin 1 is one write of the register just read with
bit 7 set or cleared. -/
theorem set_value_1_eq (dev : device_list) (value : Int) :
    my_gpio_set_value dev 1 value
      = with_ctrl_ext dev
          (if value ≠ 0 then ioread32 dev.mapped_address CTRL_EXT ||| SDP3_DATA
           else ioread32 dev.mapped_address CTRL_EXT &&& not32 SDP3_DATA) := by
  by_cases hv : value = 0 <;> simp [my_gpio_set_value, with_ctrl_ext, hv]

/-- The traced `my_gpio_direction_output` returns what the untraced one
returns and leaves the same window; it adds to the record one read of the
control-extension register followed by one write of the value the register
then holds, and nothing else. -/
theorem direction_output_traced_eq (dev : device_list) (prior : List bus_access)
    (offset : Nat) (value : Int) :
    (my_gpio_direction_output_traced ⟨dev.mapped_address, prior⟩ offset value).1
        = (my_gpio_direction_output dev offset value).1 ∧
      (my_gpio_direction_output_traced ⟨dev.mapped_address, prior⟩ offset value).2.window
        = (my_gpio_direction_output dev offset value).2.mapped_address ∧
      (my_gpio_direction_output_traced ⟨dev.mapped_address, prior⟩ offset value).2.accesses
        = prior ++ [bus_access.read CTRL_EXT,
            bus_access.write CTRL_EXT
              (ctrl_ext (my_gpio_direction_output dev offset value).2)] := by
  refine ⟨rfl, rfl, ?_⟩
  simp only [my_gpio_direction_output_traced, traced_ioread32, traced_iowrite32,
    my_gpio_direction_output, ctrl_ext, iowrite32, if_true, List.append_assoc,
    List.singleton_append]

/-- C18: for pin 0 and pin 1, every value and every 32-bit register content,
`my_gpio_direction_output(pin, value)` leaves the device as setting the pin's
direction bit in the register and then calling `my_gpio_set_value(pin, value)`
would: the direction bit is set, the data bit is set when `value` is non-zero
and cleared when it is zero, every other bit is unchanged. The call does it
in a single register write: on a window whose accesses are recorded it makes
one `ioread32` of the control-extension register and then one `iowrite32` to
it, which stores the combined value, and no other access. -/
theorem direction_output_is_set_direction_then_set_value (dev : device_list) (value : Int)
    (h32 : ctrl_ext dev < 2 ^ 32) :
    ((my_gpio_direction_output dev 0 value).2
        = my_gpio_set_value
            (with_ctrl_ext dev (ctrl_ext dev ||| SDP2_IODIR)) 0 value ∧
      (my_gpio_direction_output dev 0 value).2
        = with_ctrl_ext dev
            (if value ≠ 0 then (ctrl_ext dev ||| SDP2_IODIR) ||| SDP2_DATA
             else (ctrl_ext dev ||| SDP2_IODIR) &&& not32 SDP2_DATA) ∧
      (ctrl_ext (my_gpio_direction_output dev 0 value).2).testBit 10 = true ∧
      (ctrl_ext (my_gpio_direction_output dev 0 value).2).testBit 6
        = decide (value ≠ 0) ∧
      (∀ i, i ≠ 10 → i ≠ 6 →
        (ctrl_ext (my_gpio_direction_output dev 0 value).2).testBit i
          = (ctrl_ext dev).testBit i) ∧
      (∀ prior : List bus_access,
        (my_gpio_direction_output_traced ⟨dev.mapped_address, prior⟩ 0 value).1
            = (my_gpio_direction_output dev 0 value).1 ∧
          (my_gpio_direction_output_traced ⟨dev.mapped_address, prior⟩ 0 value).2.window
            = (my_gpio_direction_output dev 0 value).2.mapped_address ∧
          (my_gpio_direction_output_traced ⟨dev.mapped_address, prior⟩ 0 value).2.accesses
            = prior ++ [bus_access.read CTRL_EXT,
                bus_access.write CTRL_EXT
                  (ctrl_ext (my_gpio_direction_output dev 0 value).2)]) ∧
      count_writes
          (my_gpio_direction_output_traced ⟨dev.mapped_address, []⟩ 0 value).2.accesses
        = 1) ∧
    ((my_gpio_direction_output dev 1 value).2
        = my_gpio_set_value
            (with_ctrl_ext dev (ctrl_ext dev ||| SDP3_IODIR)) 1 value ∧
      (my_gpio_direction_output dev 1 value).2
        = with_ctrl_ext dev
            (if value ≠ 0 then (ctrl_ext dev ||| SDP3_IODIR) ||| SDP3_DATA
             else (ctrl_ext dev ||| SDP3_IODIR) &&& not32 SDP3_DATA) ∧
      (ctrl_ext (my_gpio_direction_output dev 1 value).2).testBit 11 = true ∧
      (ctrl_ext (my_gpio_direction_output dev 1 value).2).testBit 7
        = decide (value ≠ 0) ∧
      (∀ i, i ≠ 11 → i ≠ 7 →
        (ctrl_ext (my_gpio_direction_output dev 1 value).2).testBit i
          = (ctrl_ext dev).testBit i) ∧
      (∀ prior : List bus_access,
        (my_gpio_direction_output_traced ⟨dev.mapped_address, prior⟩ 1 value).1
            = (my_gpio_direction_output dev 1 value).1 ∧
          (my_gpio_direction_output_traced ⟨dev.mapped_address, prior⟩ 1 value).2.window
            = (my_gpio_direction_output dev 1 value).2.mapped_address ∧
          (my_gpio_direction_output_traced ⟨dev.mapped_address, prior⟩ 1 value).2.accesses
            = prior ++ [bus_access.read CTRL_EXT,
                bus_access.write CTRL_EXT
                  (ctrl_ext (my_gpio_direction_output dev 1 value).2)]) ∧
      count_writes
          (my_gpio_direction_output_traced ⟨dev.mapped_address, []⟩ 1 value).2.accesses
        = 1) := by
  have hrd : ioread32 dev.mapped_address CTRL_EXT = ctrl_ext dev := Nat.mod_eq_of_lt h32
  refine ⟨?_, ?_⟩
  · have hlt : ctrl_ext dev ||| SDP2_IODIR < 2 ^ 32 := Nat.or_lt_two_pow h32 (by decide)
    have hrd2 : ioread32 (with_ctrl_ext dev (ctrl_ext dev ||| SDP2_IODIR)).mapped_address CTRL_EXT
        = ctrl_ext dev ||| SDP2_IODIR := by
      simp only [with_ctrl_ext, ioread32, iowrite32, if_true, Nat.mod_mod]
      exact Nat.mod_eq_of_lt hlt
    have hout : (my_gpio_direction_output dev 0 value).2
        = with_ctrl_ext dev
            (if value ≠ 0 then (ctrl_ext dev ||| SDP2_IODIR) ||| SDP2_DATA
             else (ctrl_ext dev ||| SDP2_IODIR) &&& not32 SDP2_DATA) := by
      by_cases hv : value = 0 <;>
        simp [my_gpio_direction_output, with_ctrl_ext, hrd, hv]
    have hset : my_gpio_set_value (with_ctrl_ext dev (ctrl_ext dev ||| SDP2_IODIR)) 0 value
        = with_ctrl_ext dev
            (if value ≠ 0 then (ctrl_ext dev ||| SDP2_IODIR) ||| SDP2_DATA
             else (ctrl_ext dev ||| SDP2_IODIR) &&& not32 SDP2_DATA) := by
      rw [set_value_0_eq, hrd2, with_ctrl_ext_twice]
    refine ⟨hout.trans hset.symm, hout, ?_, ?_, ?_, ?_, ?_⟩
    · rw [testBit_direction_output_0]
      by_cases hv : value = 0 <;> simp [hv]
    · rw [testBit_direction_output_0]
      by_cases hv : value = 0 <;> simp [hv]
    · intro i h1 h2
      have : ¬ 10 = i := fun h => h1 h.symm
      have : ¬ 6 = i := fun h => h2 h.symm
      rw [testBit_direction_output_0, Nat.mod_eq_of_lt h32]
      by_cases hv : value = 0 <;> simp [hv, *]
    · intro prior
      exact direction_output_traced_eq dev prior 0 value
    · rw [(direction_output_traced_eq dev [] 0 value).2.2]
      rfl
  · have hlt : ctrl_ext dev ||| SDP3_IODIR < 2 ^ 32 := Nat.or_lt_two_pow h32 (by decide)
    have hrd2 : ioread32 (with_ctrl_ext dev (ctrl_ext dev ||| SDP3_IODIR)).mapped_address CTRL_EXT
        = ctrl_ext dev ||| SDP3_IODIR := by
      simp only [with_ctrl_ext, ioread32, iowrite32, if_true, Nat.mod_mod]
      exact Nat.mod_eq_of_lt hlt
    have hout : (my_gpio_direction_output dev 1 value).2
        = with_ctrl_ext dev
            (if value ≠ 0 then (ctrl_ext dev ||| SDP3_IODIR) ||| SDP3_DATA
             else (ctrl_ext dev ||| SDP3_IODIR) &&& not32 SDP3_DATA) := by
      by_cases hv : value = 0 <;>
        simp [my_gpio_direction_output, with_ctrl_ext, hrd, hv]
    have hset : my_gpio_set_value (with_ctrl_ext dev (ctrl_ext dev ||| SDP3_IODIR)) 1 value
        = with_ctrl_ext dev
            (if value ≠ 0 then (ctrl_ext dev ||| SDP3_IODIR) ||| SDP3_DATA
             else (ctrl_ext dev ||| SDP3_IODIR) &&& not32 SDP3_DATA) := by
      rw [set_value_1_eq, hrd2, with_ctrl_ext_twice]
    refine ⟨hout.trans hset.symm, hout, ?_, ?_, ?_, ?_, ?_⟩
    · rw [testBit_direction_output_1]
      by_cases hv : value = 0 <;> simp [hv]
    · rw [testBit_direction_output_1]
      by_cases hv : value = 0 <;> simp [hv]
    · intro i h1 h2
      have : ¬ 11 = i := fun h => h1 h.symm
      have : ¬ 7 = i := fun h => h2 h.symm
      rw [testBit_direction_output_1, Nat.mod_eq_of_lt h32]
      by_cases hv : value = 0 <;> simp [hv, *]
    · intro prior
      exact direction_output_traced_eq dev prior 1 value
    · rw [(direction_output_traced_eq dev [] 1 value).2.2]
      rfl

/-- C18 at the released bus (`0xC0`) with value 0. -/
theorem direction_output_is_set_direction_then_set_value_witness :
    ctrl_ext dev_released < 2 ^ 32 ∧
    (((my_gpio_direction_output dev_released 0 0).2
        = my_gpio_set_value
            (with_ctrl_ext dev_released (ctrl_ext dev_released ||| SDP2_IODIR)) 0 0 ∧
      (my_gpio_direction_output dev_released 0 0).2
        = with_ctrl_ext dev_released
            (if (0 : Int) ≠ 0 then (ctrl_ext dev_released ||| SDP2_IODIR) ||| SDP2_DATA
             else (ctrl_ext dev_released ||| SDP2_IODIR) &&& not32 SDP2_DATA) ∧
      (ctrl_ext (my_gpio_direction_output dev_released 0 0).2).testBit 10 = true ∧
      (ctrl_ext (my_gpio_direction_output dev_released 0 0).2).testBit 6
        = decide ((0 : Int) ≠ 0) ∧
      (∀ i, i ≠ 10 → i ≠ 6 →
        (ctrl_ext (my_gpio_direction_output dev_released 0 0).2).testBit i
          = (ctrl_ext dev_released).testBit i) ∧
      (∀ prior : List bus_access,
        (my_gpio_direction_output_traced ⟨dev_released.mapped_address, prior⟩ 0 0).1
            = (my_gpio_direction_output dev_released 0 0).1 ∧
          (my_gpio_direction_output_traced ⟨dev_released.mapped_address, prior⟩ 0 0).2.window
            = (my_gpio_direction_output dev_released 0 0).2.mapped_address ∧
          (my_gpio_direction_output_traced ⟨dev_released.mapped_address, prior⟩ 0 0).2.accesses
            = prior ++ [bus_access.read CTRL_EXT,
                bus_access.write CTRL_EXT
                  (ctrl_ext (my_gpio_direction_output dev_released 0 0).2)]) ∧
      count_writes
          (my_gpio_direction_output_traced ⟨dev_released.mapped_address, []⟩ 0 0).2.accesses
        = 1) ∧
    ((my_gpio_direction_output dev_released 1 0).2
        = my_gpio_set_value
            (with_ctrl_ext dev_released (ctrl_ext dev_released ||| SDP3_IODIR)) 1 0 ∧
      (my_gpio_direction_output dev_released 1 0).2
        = with_ctrl_ext dev_released
            (if (0 : Int) ≠ 0 then (ctrl_ext dev_released ||| SDP3_IODIR) ||| SDP3_DATA
             else (ctrl_ext dev_released ||| SDP3_IODIR) &&& not32 SDP3_DATA) ∧
      (ctrl_ext (my_gpio_direction_output dev_released 1 0).2).testBit 11 = true ∧
      (ctrl_ext (my_gpio_direction_output dev_released 1 0).2).testBit 7
        = decide ((0 : Int) ≠ 0) ∧
      (∀ i, i ≠ 11 → i ≠ 7 →
        (ctrl_ext (my_gpio_direction_output dev_released 1 0).2).testBit i
          = (ctrl_ext dev_released).testBit i) ∧
      (∀ prior : List bus_access,
        (my_gpio_direction_output_traced ⟨dev_released.mapped_address, prior⟩ 1 0).1
            = (my_gpio_direction_output dev_released 1 0).1 ∧
          (my_gpio_direction_output_traced ⟨dev_released.mapped_address, prior⟩ 1 0).2.window
            = (my_gpio_direction_output dev_released 1 0).2.mapped_address ∧
          (my_gpio_direction_output_traced ⟨dev_released.mapped_address, prior⟩ 1 0).2.accesses
            = prior ++ [bus_access.read CTRL_EXT,
                bus_access.write CTRL_EXT
                  (ctrl_ext (my_gpio_direction_output dev_released 1 0).2)]) ∧
      count_writes
          (my_gpio_direction_output_traced ⟨dev_released.mapped_address, []⟩ 1 0).2.accesses
        = 1)) :=
  ⟨by decide, direction_output_is_set_direction_then_set_value dev_released 0 (by decide)⟩

/-! ## Operations on different pins commute -/

theorem device_list_ext (d e : device_list) (hp : d.pdev = e.pdev)
    (hm : d.mapped_address = e.mapped_address) : d = e := by
  cases d
  cases e
  simp only [device_list.mk.injEq]
  exact ⟨hp, hm⟩

/-- A write confined to bits 10 and 6 and a write confined to bits 11 and 7
give the same device in either order. -/
theorem pin_update_comm (f g : device_list → device_list)
    (hf : pin_update 10 6 f) (hg : pin_update 11 7 g) (dev : device_list) :
    g (f dev) = f (g dev) := by
  obtain ⟨⟨fa, fb, hfb⟩, hfp, hfo⟩ := hf
  obtain ⟨⟨ga, gb, hgb⟩, hgp, hgo⟩ := hg
  apply device_list_ext
  · rw [hgp, hfp, hfp, hgp]
  · funext o
    by_cases ho : o = CTRL_EXT
    · subst ho
      show ctrl_ext (g (f dev)) = ctrl_ext (f (g dev))
      apply Nat.eq_of_testBit_eq
      intro i
      by_cases h10 : i = 10
      · subst h10
        simp only [hfb, hgb, Nat.testBit_mod_two_pow]
        simp
      · by_cases h6 : i = 6
        · subst h6
          simp only [hfb, hgb, Nat.testBit_mod_two_pow]
          simp
        · by_cases h11 : i = 11
          · subst h11
            simp only [hfb, hgb, Nat.testBit_mod_two_pow]
            simp
          · by_cases h7 : i = 7
            · subst h7
              simp only [hfb, hgb, Nat.testBit_mod_two_pow]
              simp
            · simp only [hfb, hgb, Nat.testBit_mod_two_pow, h10, h6, h11, h7, if_false]
    · rw [hgo _ _ ho, hfo _ _ ho, hfo _ _ ho, hgo _ _ ho]

theorem pin_update_direction_input_0 :
    pin_update 10 6 (fun dev => (my_gpio_direction_input dev 0).2) := by
  refine ⟨⟨fun _ => false, fun x => x, ?_⟩, ?_, ?_⟩
  · intro dev i
    have hd : (ctrl_ext dev % 4294967296).testBit 10 = (ctrl_ext dev).testBit 10 :=
      mod32_testBit_of_lt (ctrl_ext dev) (show 10 < 32 by decide)
    have hb : (ctrl_ext dev % 4294967296).testBit 6 = (ctrl_ext dev).testBit 6 :=
      mod32_testBit_of_lt (ctrl_ext dev) (show 6 < 32 by decide)
    show (ctrl_ext ((my_gpio_direction_input dev 0).2)).testBit i = _
    rw [testBit_direction_input_0]
    by_cases h1 : i = 10
    · subst h1
      simp [hd]
    · by_cases h2 : i = 6
      · subst h2
        simp [hb]
      · have h1' : ¬ 10 = i := fun h => h1 h.symm
        have h2' : ¬ 6 = i := fun h => h2 h.symm
        simp [h1, h2, h1', h2']
  · intro dev
    show ((my_gpio_direction_input dev 0).2).pdev = dev.pdev
    simp [my_gpio_direction_input]
  · intro dev o ho
    show ((my_gpio_direction_input dev 0).2).mapped_address o = dev.mapped_address o
    simp [my_gpio_direction_input, iowrite32, ho]

theorem pin_update_direction_input_1 :
    pin_update 11 7 (fun dev => (my_gpio_direction_input dev 1).2) := by
  refine ⟨⟨fun _ => false, fun x => x, ?_⟩, ?_, ?_⟩
  · intro dev i
    have hd : (ctrl_ext dev % 4294967296).testBit 11 = (ctrl_ext dev).testBit 11 :=
      mod32_testBit_of_lt (ctrl_ext dev) (show 11 < 32 by decide)
    have hb : (ctrl_ext dev % 4294967296).testBit 7 = (ctrl_ext dev).testBit 7 :=
      mod32_testBit_of_lt (ctrl_ext dev) (show 7 < 32 by decide)
    show (ctrl_ext ((my_gpio_direction_input dev 1).2)).testBit i = _
    rw [testBit_direction_input_1]
    by_cases h1 : i = 11
    · subst h1
      simp [hd]
    · by_cases h2 : i = 7
      · subst h2
        simp [hb]
      · have h1' : ¬ 11 = i := fun h => h1 h.symm
        have h2' : ¬ 7 = i := fun h => h2 h.symm
        simp [h1, h2, h1', h2']
  · intro dev
    show ((my_gpio_direction_input dev 1).2).pdev = dev.pdev
    simp [my_gpio_direction_input]
  · intro dev o ho
    show ((my_gpio_direction_input dev 1).2).mapped_address o = dev.mapped_address o
    simp [my_gpio_direction_input, iowrite32, ho]

theorem pin_update_direction_output_0 (value : Int) :
    pin_update 10 6 (fun dev => (my_gpio_direction_output dev 0 value).2) := by
  refine ⟨⟨fun _ => true, fun _ => decide (value ≠ 0), ?_⟩, ?_, ?_⟩
  · intro dev i
    have hd : (ctrl_ext dev % 4294967296).testBit 10 = (ctrl_ext dev).testBit 10 :=
      mod32_testBit_of_lt (ctrl_ext dev) (show 10 < 32 by decide)
    have hb : (ctrl_ext dev % 4294967296).testBit 6 = (ctrl_ext dev).testBit 6 :=
      mod32_testBit_of_lt (ctrl_ext dev) (show 6 < 32 by decide)
    show (ctrl_ext ((my_gpio_direction_output dev 0 value).2)).testBit i = _
    rw [testBit_direction_output_0]
    by_cases h1 : i = 10
    · subst h1
      by_cases hv : value = 0 <;> simp [hv, hd]
    · by_cases h2 : i = 6
      · subst h2
        by_cases hv : value = 0 <;> simp [hv, hb]
      · have h1' : ¬ 10 = i := fun h => h1 h.symm
        have h2' : ¬ 6 = i := fun h => h2 h.symm
        by_cases hv : value = 0 <;> simp [hv, h1, h2, h1', h2']
  · intro dev
    show ((my_gpio_direction_output dev 0 value).2).pdev = dev.pdev
    by_cases hv : value = 0 <;> simp [my_gpio_direction_output, hv]
  · intro dev o ho
    show ((my_gpio_direction_output dev 0 value).2).mapped_address o = dev.mapped_address o
    by_cases hv : value = 0 <;> simp [my_gpio_direction_output, iowrite32, ho, hv]

theorem pin_update_direction_output_1 (value : Int) :
    pin_update 11 7 (fun dev => (my_gpio_direction_output dev 1 value).2) := by
  refine ⟨⟨fun _ => true, fun _ => decide (value ≠ 0), ?_⟩, ?_, ?_⟩
  · intro dev i
    have hd : (ctrl_ext dev % 4294967296).testBit 11 = (ctrl_ext dev).testBit 11 :=
      mod32_testBit_of_lt (ctrl_ext dev) (show 11 < 32 by decide)
    have hb : (ctrl_ext dev % 4294967296).testBit 7 = (ctrl_ext dev).testBit 7 :=
      mod32_testBit_of_lt (ctrl_ext dev) (show 7 < 32 by decide)
    show (ctrl_ext ((my_gpio_direction_output dev 1 value).2)).testBit i = _
    rw [testBit_direction_output_1]
    by_cases h1 : i = 11
    · subst h1
      by_cases hv : value = 0 <;> simp [hv, hd]
    · by_cases h2 : i = 7
      · subst h2
        by_cases hv : value = 0 <;> simp [hv, hb]
      · have h1' : ¬ 11 = i := fun h => h1 h.symm
        have h2' : ¬ 7 = i := fun h => h2 h.symm
        by_cases hv : value = 0 <;> simp [hv, h1, h2, h1', h2']
  · intro dev
    show ((my_gpio_direction_output dev 1 value).2).pdev = dev.pdev
    by_cases hv : value = 0 <;> simp [my_gpio_direction_output, hv]
  · intro dev o ho
    show ((my_gpio_direction_output dev 1 value).2).mapped_address o = dev.mapped_address o
    by_cases hv : value = 0 <;> simp [my_gpio_direction_output, iowrite32, ho, hv]

theorem pin_update_set_value_0 (value : Int) :
    pin_update 10 6 (fun dev => my_gpio_set_value dev 0 value) := by
  refine ⟨⟨fun x => x, fun _ => decide (value ≠ 0), ?_⟩, ?_, ?_⟩
  · intro dev i
    have hd : (ctrl_ext dev % 4294967296).testBit 10 = (ctrl_ext dev).testBit 10 :=
      mod32_testBit_of_lt (ctrl_ext dev) (show 10 < 32 by decide)
    have hb : (ctrl_ext dev % 4294967296).testBit 6 = (ctrl_ext dev).testBit 6 :=
      mod32_testBit_of_lt (ctrl_ext dev) (show 6 < 32 by decide)
    show (ctrl_ext (my_gpio_set_value dev 0 value)).testBit i = _
    rw [testBit_set_value_0]
    by_cases h1 : i = 10
    · subst h1
      by_cases hv : value = 0 <;> simp [hv, hd]
    · by_cases h2 : i = 6
      · subst h2
        by_cases hv : value = 0 <;> simp [hv, hb]
      · have h1' : ¬ 10 = i := fun h => h1 h.symm
        have h2' : ¬ 6 = i := fun h => h2 h.symm
        by_cases hv : value = 0 <;> simp [hv, h1, h2, h1', h2']
  · intro dev
    show (my_gpio_set_value dev 0 value).pdev = dev.pdev
    by_cases hv : value = 0 <;> simp [my_gpio_set_value, hv]
  · intro dev o ho
    show (my_gpio_set_value dev 0 value).mapped_address o = dev.mapped_address o
    by_cases hv : value = 0 <;> simp [my_gpio_set_value, iowrite32, ho, hv]

theorem pin_update_set_value_1 (value : Int) :
    pin_update 11 7 (fun dev => my_gpio_set_value dev 1 value) := by
  refine ⟨⟨fun x => x, fun _ => decide (value ≠ 0), ?_⟩, ?_, ?_⟩
  · intro dev i
    have hd : (ctrl_ext dev % 4294967296).testBit 11 = (ctrl_ext dev).testBit 11 :=
      mod32_testBit_of_lt (ctrl_ext dev) (show 11 < 32 by decide)
    have hb : (ctrl_ext dev % 4294967296).testBit 7 = (ctrl_ext dev).testBit 7 :=
      mod32_testBit_of_lt (ctrl_ext dev) (show 7 < 32 by decide)
    show (ctrl_ext (my_gpio_set_value dev 1 value)).testBit i = _
    rw [testBit_set_value_1]
    by_cases h1 : i = 11
    · subst h1
      by_cases hv : value = 0 <;> simp [hv, hd]
    · by_cases h2 : i = 7
      · subst h2
        by_cases hv : value = 0 <;> simp [hv, hb]
      · have h1' : ¬ 11 = i := fun h => h1 h.symm
        have h2' : ¬ 7 = i := fun h => h2 h.symm
        by_cases hv : value = 0 <;> simp [hv, h1, h2, h1', h2']
  · intro dev
    show (my_gpio_set_value dev 1 value).pdev = dev.pdev
    by_cases hv : value = 0 <;> simp [my_gpio_set_value, hv]
  · intro dev o ho
    show (my_gpio_set_value dev 1 value).mapped_address o = dev.mapped_address o
    by_cases hv : value = 0 <;> simp [my_gpio_set_value, iowrite32, ho, hv]

/-- Every operation addressed to pin 0 is a write confined to bits 10 and 6. -/
theorem run_pin0_update (op : pin_op) :
    pin_update 10 6 (fun dev => (op.run_pin0 dev).2) := by
  cases op with
  | direction_input => exact pin_update_direction_input_0
  | direction_output value => exact pin_update_direction_output_0 value
  | set_value value => exact pin_update_set_value_0 value
  | set_line state =>
    by_cases hs : state = 0
    · have e : (fun dev => (pin_op.run_pin0 dev (.set_line state)).2)
          = fun dev => (my_gpio_direction_output dev 0 0).2 := by
        funext dev
        show MiniPTM_Set_SDA dev state = _
        unfold MiniPTM_Set_SDA
        rw [if_neg (not_not.mpr hs)]
      rw [e]
      exact pin_update_direction_output_0 0
    · have e : (fun dev => (pin_op.run_pin0 dev (.set_line state)).2)
          = fun dev => (my_gpio_direction_input dev 0).2 := by
        funext dev
        show MiniPTM_Set_SDA dev state = _
        unfold MiniPTM_Set_SDA
        rw [if_pos hs]
      rw [e]
      exact pin_update_direction_input_0
  | read_line =>
    have e : (fun dev => (pin_op.run_pin0 dev .read_line).2)
        = fun dev => (my_gpio_direction_input dev 0).2 := by
      funext dev
      show (MiniPTM_Read_SDA dev).2 = _
      unfold MiniPTM_Read_SDA
      rw [get_value_0]
    rw [e]
    exact pin_update_direction_input_0

/-- What an operation addressed to pin 0 returns depends on the register
only through bit 6. -/
theorem run_pin0_ret_congr (op : pin_op) (d e : device_list)
    (h : (ctrl_ext d).testBit 6 = (ctrl_ext e).testBit 6) :
    (op.run_pin0 d).1 = (op.run_pin0 e).1 := by
  cases op with
  | direction_input => rfl
  | direction_output value => rfl
  | set_value value => rfl
  | set_line state => rfl
  | read_line =>
    have hd : (ctrl_ext d % 4294967296).testBit 6 = (ctrl_ext d).testBit 6 :=
      mod32_testBit_of_lt (ctrl_ext d) (show 6 < 32 by decide)
    have he : (ctrl_ext e % 4294967296).testBit 6 = (ctrl_ext e).testBit 6 :=
      mod32_testBit_of_lt (ctrl_ext e) (show 6 < 32 by decide)
    show some (MiniPTM_Read_SDA d).1 = some (MiniPTM_Read_SDA e).1
    unfold MiniPTM_Read_SDA
    rw [get_value_0, get_value_0, testBit_direction_input_0,
      testBit_direction_input_0]
    simp [hd, he, h]

/-- Every operation addressed to pin 1 is a write confined to bits 11 and 7. -/
theorem run_pin1_update (op : pin_op) :
    pin_update 11 7 (fun dev => (op.run_pin1 dev).2) := by
  cases op with
  | direction_input => exact pin_update_direction_input_1
  | direction_output value => exact pin_update_direction_output_1 value
  | set_value value => exact pin_update_set_value_1 value
  | set_line state =>
    by_cases hs : state = 0
    · have e : (fun dev => (pin_op.run_pin1 dev (.set_line state)).2)
          = fun dev => (my_gpio_direction_output dev 1 0).2 := by
        funext dev
        show MiniPTM_Set_SCL dev state = _
        unfold MiniPTM_Set_SCL
        rw [if_neg (not_not.mpr hs)]
      rw [e]
      exact pin_update_direction_output_1 0
    · have e : (fun dev => (pin_op.run_pin1 dev (.set_line state)).2)
          = fun dev => (my_gpio_direction_input dev 1).2 := by
        funext dev
        show MiniPTM_Set_SCL dev state = _
        unfold MiniPTM_Set_SCL
        rw [if_pos hs]
      rw [e]
      exact pin_update_direction_input_1
  | read_line =>
    have e : (fun dev => (pin_op.run_pin1 dev .read_line).2)
        = fun dev => (my_gpio_direction_input dev 1).2 := by
      funext dev
      show (MiniPTM_Read_SCL dev).2 = _
      unfold MiniPTM_Read_SCL
      rw [get_value_1]
    rw [e]
    exact pin_update_direction_input_1

/-- What an operation addressed to pin 1 returns depends on the register
only through bit 7. -/
theorem run_pin1_ret_congr (op : pin_op) (d e : device_list)
    (h : (ctrl_ext d).testBit 7 = (ctrl_ext e).testBit 7) :
    (op.run_pin1 d).1 = (op.run_pin1 e).1 := by
  cases op with
  | direction_input => rfl
  | direction_output value => rfl
  | set_value value => rfl
  | set_line state => rfl
  | read_line =>
    have hd : (ctrl_ext d % 4294967296).testBit 7 = (ctrl_ext d).testBit 7 :=
      mod32_testBit_of_lt (ctrl_ext d) (show 7 < 32 by decide)
    have he : (ctrl_ext e % 4294967296).testBit 7 = (ctrl_ext e).testBit 7 :=
      mod32_testBit_of_lt (ctrl_ext e) (show 7 < 32 by decide)
    show some (MiniPTM_Read_SCL d).1 = some (MiniPTM_Read_SCL e).1
    unfold MiniPTM_Read_SCL
    rw [get_value_1, get_value_1, testBit_direction_input_1,
      testBit_direction_input_1]
    simp [hd, he, h]

/-- C19: complete operations on different pins commute. For every register
content, every mutating operation `a` addressed to pin 0 (`direction_input`,
`direction_output`, `set_value`, `MiniPTM_Set_SDA`, `MiniPTM_Read_SDA`) and
every mutating operation `b` addressed to pin 1 (the same bridge operations,
`MiniPTM_Set_SCL`, `MiniPTM_Read_SCL`), running `a` then `b` leaves the same
device, hence the same register, and returns the same values as running `b`
then `a`. -/
theorem operations_on_different_pins_commute (dev : device_list) (a b : pin_op) :
    (b.run_pin1 (a.run_pin0 dev).2).2 = (a.run_pin0 (b.run_pin1 dev).2).2 ∧
    ctrl_ext (b.run_pin1 (a.run_pin0 dev).2).2 = ctrl_ext (a.run_pin0 (b.run_pin1 dev).2).2 ∧
    (a.run_pin0 dev).1 = (a.run_pin0 (b.run_pin1 dev).2).1 ∧
    (b.run_pin1 (a.run_pin0 dev).2).1 = (b.run_pin1 dev).1 := by
  have hcomm : (b.run_pin1 (a.run_pin0 dev).2).2 = (a.run_pin0 (b.run_pin1 dev).2).2 :=
    pin_update_comm (fun d => (a.run_pin0 d).2) (fun d => (b.run_pin1 d).2)
      (run_pin0_update a) (run_pin1_update b) dev
  obtain ⟨⟨fa, fb, hfb⟩, _, _⟩ := run_pin0_update a
  obtain ⟨⟨ga, gb, hgb⟩, _, _⟩ := run_pin1_update b
  have h6 : (ctrl_ext dev).testBit 6 = (ctrl_ext (b.run_pin1 dev).2).testBit 6 := by
    have := hgb dev 6
    simp only [show ¬ (6 = 11) by decide, show ¬ (6 = 7) by decide, if_false] at this
    rw [this]
    exact (mod32_testBit_of_lt (ctrl_ext dev) (show 6 < 32 by decide)).symm
  have h7 : (ctrl_ext (a.run_pin0 dev).2).testBit 7 = (ctrl_ext dev).testBit 7 := by
    have := hfb dev 7
    simp only [show ¬ (7 = 10) by decide, show ¬ (7 = 6) by decide, if_false] at this
    rw [this]
    exact mod32_testBit_of_lt (ctrl_ext dev) (show 7 < 32 by decide)
  exact ⟨hcomm, congrArg ctrl_ext hcomm, run_pin0_ret_congr a _ _ h6,
    run_pin1_ret_congr b _ _ h7⟩

end MiniPTM
